import Mathlib

/-!
Shallow embedding of the AI generation-and-caching pipeline of
`core/views.py` (career plans, internships, quizzes, job search, local
recommendations), together with the relational rows of `core/models.py`
that those endpoints touch.  Machine details that the endpoints rely on
(Python string methods, `re` searches, `json.loads`, Django cache
get/set, ORM filter/delete/create) are modelled explicitly below; JSON
numbers are modelled as integers (no claim in scope involves fractional
numbers) and the floating-point score computation of `submit_quiz` is
modelled bit-faithfully: each float operation rounds its exact rational
value to the nearest IEEE-754 binary64 (ties to even), and Python
`round` is half-to-even on the exact value of the resulting double.
-/

/-- JSON values as produced by `json.loads` (numbers restricted to
integers; objects keep key order as assoc lists). -/
inductive Json where
  | null : Json
  | bool : Bool → Json
  | int : Int → Json
  | str : String → Json
  | arr : List Json → Json
  | obj : List (String × Json) → Json
deriving Repr

/-- Python truthiness of a JSON value (`if not questions`, `if jobs_data` …). -/
def Json.isTruthy : Json → Bool
  | .null => false
  | .bool b => b
  | .int n => n ≠ 0
  | .str s => s ≠ ""
  | .arr l => !l.isEmpty
  | .obj l => !l.isEmpty

/-- `d.get(k, default)` on a JSON object viewed as a Python dict
(first binding wins, as in a dict with unique keys). -/
def jsonGetD : List (String × Json) → String → Json → Json
  | [], _, d => d
  | p :: rest, k, d => if p.1 = k then p.2 else jsonGetD rest k d

/-- `k in d` on a JSON object. -/
def jsonHasKey : List (String × Json) → String → Bool
  | [], _ => false
  | p :: rest, k => p.1 = k || jsonHasKey rest k

/- ## Python string primitives used by the endpoints -/

/-- Python `str.strip()` whitespace class. -/
def isPyWs (c : Char) : Bool :=
  c = ' ' || c = '\t' || c = '\n' || c = '\r' || c = '\x0b' || c = '\x0c'

/-- Python `s.strip()`. -/
def pyStrip (s : String) : String :=
  ⟨((s.data.dropWhile isPyWs).reverse.dropWhile isPyWs).reverse⟩

/-- Python `s.lower()` (ASCII case handling). -/
def pyLower (s : String) : String := ⟨s.data.map Char.toLower⟩

/-- Left-to-right non-overlapping replacement on character lists
(`fuel` bounds the recursion; callers pass the list length plus one). -/
def replaceFrom (fuel : Nat) (old new : List Char) : List Char → List Char
  | s =>
    match fuel with
    | 0 => s
    | fuel + 1 =>
      if old.isPrefixOf s ∧ old ≠ [] then
        new ++ replaceFrom fuel old new (s.drop old.length)
      else
        match s with
        | [] => []
        | c :: cs => c :: replaceFrom fuel old new cs

/-- Python `s.replace(old, new)` (for the non-empty separators used here). -/
def pyReplace (s old new : String) : String :=
  ⟨replaceFrom (s.data.length + 1) old.data new.data s.data⟩

/-- Substring containment on character lists. -/
def listContainsSub (sub : List Char) : List Char → Bool
  | [] => sub.isPrefixOf []
  | c :: cs => sub.isPrefixOf (c :: cs) || listContainsSub sub (c :: cs).tail

/-- Python `sub in s`. -/
def pyContains (s sub : String) : Bool := listContainsSub sub.data s.data

/-- Everything after the first occurrence of `sep` (empty when absent). -/
def afterFirstL (sep : List Char) : List Char → List Char
  | [] => []
  | c :: cs =>
    if sep.isPrefixOf (c :: cs) then (c :: cs).drop sep.length
    else afterFirstL sep cs

/-- Everything before the first occurrence of `sep` (whole list when absent). -/
def beforeFirstL (sep : List Char) : List Char → List Char
  | [] => []
  | c :: cs =>
    if sep.isPrefixOf (c :: cs) then []
    else c :: beforeFirstL sep cs

def afterFirst (s sep : String) : String := ⟨afterFirstL sep.data s.data⟩

def beforeFirst (s sep : String) : String := ⟨beforeFirstL sep.data s.data⟩

/-- The markdown-fence stripping shared verbatim by `generate_career_plan`,
`scrape_jobs` and `local_discounts_and_events`:
`if "```json" in t: t = t.split("```json")[1].split("```")[0].strip()`
`elif "```" in t: t = t.split("```")[1].split("```")[0].strip()`. -/
def stripFences (s : String) : String :=
  if pyContains s "```json" then pyStrip (beforeFirst (afterFirst s "```json") "```")
  else if pyContains s "```" then pyStrip (beforeFirst (afterFirst s "```") "```")
  else s

/-- `re.search(r"\[.*\]", s, re.DOTALL)`: greedy span from the first `[`
to the last `]`, provided the last `]` comes after the first `[`. -/
def bracketSpan (s : String) : Option String :=
  let cs := s.data
  match cs.findIdx? (fun c => c = '['), cs.reverse.findIdx? (fun c => c = ']') with
  | some i, some jr =>
    let j := cs.length - 1 - jr
    if i < j then some ⟨(cs.drop i).take (j - i + 1)⟩ else none
  | _, _ => none

/-- `re.sub(r"[^a-zA-Z0-9]", "_", s)`. -/
def sanitizeNonAlnum (s : String) : String :=
  ⟨s.data.map (fun c =>
    if ('a' ≤ c ∧ c ≤ 'z') ∨ ('A' ≤ c ∧ c ≤ 'Z') ∨ ('0' ≤ c ∧ c ≤ '9') then c
    else '_')⟩

/- ## `json.loads` -/

/-- JSON inter-token whitespace. -/
def jsonWs (c : Char) : Bool := c = ' ' || c = '\t' || c = '\n' || c = '\r'

def skipWs (cs : List Char) : List Char := cs.dropWhile jsonWs

def lbraceChar : Char := Char.ofNat 123

def rbraceChar : Char := Char.ofNat 125

/-- Short escapes accepted inside JSON strings. -/
def escChar : Char → Option Char
  | '"' => some '"'
  | '\\' => some '\\'
  | '/' => some '/'
  | 'b' => some '\x08'
  | 'f' => some '\x0c'
  | 'n' => some '\n'
  | 'r' => some '\r'
  | 't' => some '\t'
  | _ => none

def hexVal (c : Char) : Option Nat :=
  if '0' ≤ c ∧ c ≤ '9' then some (c.toNat - 48)
  else if 'a' ≤ c ∧ c ≤ 'f' then some (c.toNat - 87)
  else if 'A' ≤ c ∧ c ≤ 'F' then some (c.toNat - 55)
  else none

/-- Body of a JSON string after the opening quote: returns the decoded
characters and the input after the closing quote.  Unescaped control
characters are rejected, as in Python's strict decoder. -/
def parseStrBody : Nat → List Char → Option (List Char × List Char)
  | 0, _ => none
  | _, [] => none
  | fuel + 1, c :: cs =>
    if c = '"' then some ([], cs)
    else if c = '\\' then
      match cs with
      | [] => none
      | e :: cs' =>
        if e = 'u' then
          match cs' with
          | h1 :: h2 :: h3 :: h4 :: rest =>
            match hexVal h1, hexVal h2, hexVal h3, hexVal h4 with
            | some a, some b, some c2, some d =>
              (parseStrBody fuel rest).map
                (fun p => (Char.ofNat (((a * 16 + b) * 16 + c2) * 16 + d) :: p.1, p.2))
            | _, _, _, _ => none
          | _ => none
        else
          match escChar e with
          | some ec => (parseStrBody fuel cs').map (fun p => (ec :: p.1, p.2))
          | none => none
    else if c.toNat < 32 then none
    else (parseStrBody fuel cs).map (fun p => (c :: p.1, p.2))

def digitsToNat (ds : List Char) : Nat :=
  ds.foldl (fun n c => 10 * n + (c.toNat - 48)) 0

/-- JSON number (integers only: a fractional part or exponent makes the
whole parse fail in this model; leading zeros rejected as in JSON). -/
def parseNumber (cs : List Char) : Option (Json × List Char) :=
  let (neg, cs1) := match cs with | '-' :: t => (true, t) | _ => (false, cs)
  match cs1.head? with
  | none => none
  | some c =>
    if ¬ c.isDigit then none
    else
      let ds := cs1.takeWhile Char.isDigit
      let rest := cs1.dropWhile Char.isDigit
      if ds.length > 1 ∧ ds.headD '0' = '0' then none
      else
        match rest.head? with
        | some '.' => none
        | some 'e' => none
        | some 'E' => none
        | _ =>
          some (.int (if neg then -(digitsToNat ds : Int) else (digitsToNat ds : Int)), rest)

/-- Later duplicate keys win, as in a Python dict literal. -/
def addObjKey (k : String) (v : Json) (l : List (String × Json)) :
    List (String × Json) :=
  if jsonHasKey l k then l else (k, v) :: l

mutual

/-- One JSON value, input already whitespace-skipped at the front. -/
def parseValue : Nat → List Char → Option (Json × List Char)
  | 0, _ => none
  | fuel + 1, cs =>
    match cs with
    | [] => none
    | c :: rest =>
      if c = '"' then
        (parseStrBody (rest.length + 1) rest).map (fun p => (.str ⟨p.1⟩, p.2))
      else if c = '[' then
        match skipWs rest with
        | ']' :: r => some (.arr [], r)
        | cs' => (parseArrItems fuel cs').map (fun p => (.arr p.1, p.2))
      else if c = lbraceChar then
        match skipWs rest with
        | r0 =>
          if r0.head? = some rbraceChar then some (.obj [], r0.tail)
          else (parseObjItems fuel r0).map (fun p => (.obj p.1, p.2))
      else if ['n', 'u', 'l', 'l'].isPrefixOf cs then some (.null, cs.drop 4)
      else if ['t', 'r', 'u', 'e'].isPrefixOf cs then some (.bool true, cs.drop 4)
      else if ['f', 'a', 'l', 's', 'e'].isPrefixOf cs then some (.bool false, cs.drop 5)
      else parseNumber cs

/-- Array items from the first value up to the closing bracket. -/
def parseArrItems : Nat → List Char → Option (List Json × List Char)
  | 0, _ => none
  | fuel + 1, cs =>
    match parseValue fuel (skipWs cs) with
    | none => none
    | some (v, r) =>
      match skipWs r with
      | ']' :: r' => some ([v], r')
      | ',' :: r' => (parseArrItems fuel r').map (fun p => (v :: p.1, p.2))
      | _ => none

/-- Object entries from the first key up to the closing brace. -/
def parseObjItems : Nat → List Char → Option (List (String × Json) × List Char)
  | 0, _ => none
  | fuel + 1, cs =>
    match cs with
    | '"' :: r =>
      match parseStrBody (r.length + 1) r with
      | none => none
      | some (k, r1) =>
        match skipWs r1 with
        | ':' :: r2 =>
          match parseValue fuel (skipWs r2) with
          | none => none
          | some (v, r3) =>
            match skipWs r3 with
            | c :: r4 =>
              if c = rbraceChar then some ([(⟨k⟩, v)], r4)
              else if c = ',' then
                (parseObjItems fuel (skipWs r4)).map
                  (fun p => (addObjKey ⟨k⟩ v p.1, p.2))
              else none
            | [] => none
        | _ => none
    | _ => none

end

/-- `json.loads(s)` (raises → `none`). -/
def jsonLoads (s : String) : Option Json :=
  match parseValue (s.data.length + 2) (skipWs s.data) with
  | some (v, rest) => if (skipWs rest).isEmpty then some v else none
  | none => none

/- ## Python value rendering (f-string interpolation of JSON payload values) -/

mutual

/-- Python `repr` of a JSON payload value (string escaping inside `repr`
is not reproduced; no claim depends on it). -/
def pyReprJson : Json → String
  | .null => "None"
  | .bool b => if b then "True" else "False"
  | .int n => toString n
  | .str s => "\x27" ++ s ++ "\x27"
  | .arr l => "[" ++ ", ".intercalate (pyReprList l) ++ "]"
  | .obj l => "\x7b" ++ ", ".intercalate (pyReprObj l) ++ "\x7d"

def pyReprList : List Json → List String
  | [] => []
  | j :: js => pyReprJson j :: pyReprList js

def pyReprObj : List (String × Json) → List String
  | [] => []
  | (k, v) :: kvs => ("\x27" ++ k ++ "\x27: " ++ pyReprJson v) :: pyReprObj kvs

end

/-- Python `str` of a JSON payload value, as f-string interpolation does. -/
def pyStrJson : Json → String
  | .str s => s
  | j => pyReprJson j

mutual

/-- Python `==` on JSON payload values (Python's `True == 1` and dict
order-insensitivity are not reproduced; comparisons in scope are on
integers). -/
def jsonBeq : Json → Json → Bool
  | .null, .null => true
  | .bool a, .bool b => a == b
  | .int a, .int b => a == b
  | .str a, .str b => a == b
  | .arr a, .arr b => jsonBeqList a b
  | .obj a, .obj b => jsonBeqObj a b
  | _, _ => false

def jsonBeqList : List Json → List Json → Bool
  | [], [] => true
  | a :: as, b :: bs => jsonBeq a b && jsonBeqList as bs
  | _, _ => false

def jsonBeqObj : List (String × Json) → List (String × Json) → Bool
  | [], [] => true
  | (k1, v1) :: as, (k2, v2) :: bs => k1 == k2 && jsonBeq v1 v2 && jsonBeqObj as bs
  | _, _ => false

end

/-- Iterating a Python value with `for x in v`: lists yield elements,
strings yield one-character strings, dicts yield their keys; anything
else raises `TypeError` (`none`). -/
def iterItems : Json → Option (List Json)
  | .arr l => some l
  | .str s => some (s.data.map (fun c => .str ⟨[c]⟩))
  | .obj kvs => some (kvs.map (fun p => .str p.1))
  | _ => none

/-- `urllib.parse.quote_plus`: UTF-8 bytes of a codepoint. -/
def utf8Bytes (c : Char) : List Nat :=
  let n := c.toNat
  if n < 128 then [n]
  else if n < 2048 then [192 + n / 64, 128 + n % 64]
  else if n < 65536 then [224 + n / 4096, 128 + (n / 64) % 64, 128 + n % 64]
  else [240 + n / 262144, 128 + (n / 4096) % 64, 128 + (n / 64) % 64, 128 + n % 64]

def hexDigitUpper (n : Nat) : Char :=
  if n < 10 then Char.ofNat (48 + n) else Char.ofNat (55 + n)

/-- `urllib.parse.quote_plus(s)`. -/
def quotePlus (s : String) : String :=
  ⟨s.data.flatMap (fun c =>
    if ('a' ≤ c ∧ c ≤ 'z') ∨ ('A' ≤ c ∧ c ≤ 'Z') ∨ ('0' ≤ c ∧ c ≤ '9') ∨
       c = '_' ∨ c = '.' ∨ c = '-' ∨ c = '~' then [c]
    else if c = ' ' then ['+']
    else (utf8Bytes c).flatMap (fun b => ['%', hexDigitUpper (b / 16), hexDigitUpper (b % 16)]))⟩

/-- Round the nonnegative rational `p / q` (`q > 0`) to the nearest
integer, ties to even. -/
def roundHalfEven (p q : Nat) : Nat :=
  let n := p / q
  let r := p % q
  if 2 * r < q then n
  else if q < 2 * r then n + 1
  else if n % 2 = 0 then n else n + 1

/-- Whether `2^k ≤ p / q` (`p, q > 0`). -/
def ratGeTwoPow (p q : Nat) (k : Int) : Bool :=
  if 0 ≤ k then decide (q * 2 ^ k.toNat ≤ p) else decide (q ≤ p * 2 ^ (-k).toNat)

/-- Bit length of `n` (fuel-bounded so it unfolds by iota reduction;
`fuel = n` always suffices since the bit length of `n ≥ 1` is at most
`n`). -/
def bitLenAux : Nat → Nat → Nat
  | 0, _ => 0
  | fuel + 1, n => if n = 0 then 0 else bitLenAux fuel (n / 2) + 1

/-- Number of binary digits of `n` (`0` for `n = 0`). -/
def bitLen (n : Nat) : Nat := bitLenAux n n

/-- Floor of the base-2 logarithm of `p / q` (`p, q > 0`): the bit-length
difference, corrected down by one when `p / q` falls below `2^d`. -/
def floorLog2 (p q : Nat) : Int :=
  let d : Int := (bitLen p : Int) - (bitLen q : Int)
  if ratGeTwoPow p q d then d else d - 1

/-- The IEEE-754 binary64 value nearest to `p / q` (round-to-nearest,
ties-to-even on the 53-bit significand), as a dyadic pair `(m, e)` of
value `m * 2^e`; the exponent is clamped at `-1074` (subnormals), and
`(0, 0)` is returned for `p = 0`.  Overflow to infinity is not modelled:
every value this development feeds in is at most 128. -/
def flRat (p q : Nat) : Nat × Int :=
  if p = 0 ∨ q = 0 then (0, 0)
  else
    let k := floorLog2 p q
    let e : Int := if k - 52 < -1074 then -1074 else k - 52
    let m :=
      if 0 ≤ e then roundHalfEven p (q * 2 ^ e.toNat)
      else roundHalfEven (p * 2 ^ (-e).toNat) q
    (m, e)

/-- The float product `x * 100.0` on a dyadic double value: the exact
rational `m * 100 * 2^e` rounded back to binary64. -/
def dblTimes100 (d : Nat × Int) : Nat × Int :=
  if 0 ≤ d.2 then flRat (d.1 * 100 * 2 ^ d.2.toNat) 1
  else flRat (d.1 * 100) (2 ^ (-d.2).toNat)

/-- Python `round` on a nonnegative double given as a dyadic pair:
half-to-even rounding of the exact value `m * 2^e` to an integer. -/
def dblRoundInt (d : Nat × Int) : Nat :=
  if 0 ≤ d.2 then d.1 * 2 ^ d.2.toNat
  else roundHalfEven d.1 (2 ^ (-d.2).toNat)

/-- The score computation `round((c / t) * 100)` (views.py:519) with
CPython float semantics: the division and the product each round to the
nearest binary64, and `round` is half-to-even on the exact value of the
resulting double.  This drifts from the exact-rational rounding at
double-rounded ties: `pyScore100 109 200 = 55` although
`100 * 109 / 200 = 54.5` rounds to `54` half-to-even. -/
def pyScore100 (c t : Nat) : Nat := dblRoundInt (dblTimes100 (flRat c t))

/-- Modelled from the claim text, not from the code: Python `round`
applied to the EXACT rational `100 * c / t`.  The code computes the
ratio in floating point (`pyScore100` above), which differs from this
reading at `c = 109, t = 200`. -/
def specRound100 (c t : Nat) : Nat := roundHalfEven (100 * c) t

/- ## Relational rows (`core/models.py`) and the Django cache -/

/-- `core.models.Internship` (fields the modelled endpoints touch;
`CharField`/`TextField` values rendered to strings, JSON fields kept
as JSON). -/
structure InternshipRow where
  id : Nat
  userId : Nat
  title : String
  minDays : Json
  maxDays : Json
  description : String
  skillsLearned : String
  aiGeneratedText : String
  youtubeLinks : Json
  interview_questions : Json
  imageUrl : String
deriving Repr

/-- `core.models.Enrollment`. -/
structure EnrollmentRow where
  userId : Nat
  internshipId : Nat
  status : String
  repoLink : Json
  timeTakenDays : Json
  difficultyRating : Json
  userRating : Json
  aiScore : Option Int
  aiFeedback : String
deriving Repr

/-- `core.models.CareerPlan`. -/
structure CareerPlanRow where
  id : Nat
  userId : Nat
  planDetails : String
  createdAt : Nat
deriving Repr

/-- `core.models.ScrapedJob` (response payloads mirror these fields). -/
structure ScrapedJobRow where
  id : Nat
  userId : Nat
  title : Json
  company : Json
  location : Json
  link : String
  source : Json
  description : Json
deriving Repr

/-- `core.models.LocalVibe`. -/
structure LocalVibeRow where
  city : String
  country : String
  offers : Json
deriving Repr

/-- `users.models.CustomUser` profile fields read by the endpoints
(`skills` modelled as the list of strings the boarding flow stores;
`interests` kept as JSON because it is rendered into a prompt). -/
structure UserRec where
  id : Nat
  occupation : String
  interests : Json
  experienceLevel : Int
  skills : List String
  city : String
  country : String
deriving Repr

/-- Django shared cache: entries `(key, value, expiry instant)`. -/
abbrev CacheStore := List (String × Json × Nat)

/-- `cache.get(key)` at instant `now` (expired entries read as absent). -/
def cacheGet (c : CacheStore) (k : String) (now : Nat) : Option Json :=
  match c.find? (fun e => e.1 = k) with
  | some e => if now < e.2.2 then some e.2.1 else none
  | none => none

/-- `cache.set(key, v, timeout=ttl)` at instant `now`. -/
def cacheSet (c : CacheStore) (k : String) (v : Json) (ttl now : Nat) : CacheStore :=
  (k, v, now + ttl) :: c.filter (fun e => ¬ e.1 = k)

/-- A DRF view outcome: 200 payload, explicit error `Response(status=n)`,
or an exception the view does not catch (Django's 500). -/
inductive HttpResp (α : Type) where
  | ok : α → HttpResp α
  | err : Nat → String → HttpResp α
  | crash : HttpResp α
deriving Repr

/-- The external generation service: `ai_generate(prompt)` returns the
response text or raises (missing credential or upstream failure). -/
def GenService := String → Except String String

/- ## Prompt builders (the f-strings of `core/views.py`) -/

/-- `get_lang_instruction`'s Turkish suffix (line 81). -/
def turkishInstruction : String :=
  "\n\nIMPORTANT: Respond ENTIRELY in Turkish (Türkçe). All text, descriptions, titles, and feedback must be in Turkish."

/-- `get_lang_instruction(request)`: the `Accept-Language` header
(absent → "en") selects an AI prompt suffix. -/
def get_lang_instruction (acceptLanguage : Option String) : String :=
  let lang := acceptLanguage.getD "en"
  if lang = "tr" then turkishInstruction else ""

/-- The `generate_career_plan` prompt (lines 193-209). -/
def careerPlanPrompt (occupation : String) (interests : Json)
    (experienceLevel : Int) (extraPrompt : String) : String :=
  "\n    Create a step-by-step career plan for a user with the following profile:\n    Occupation: "
  ++ occupation ++ "\n    Interests: " ++ pyStrJson interests
  ++ "\n    Experience Level: " ++ toString experienceLevel
  ++ " out of 5 stars.\n    Extra details: " ++ extraPrompt
  ++ "\n    \n    You MUST output ONLY a raw JSON array of objects representing steps in a roadmap.\n    Each object must have these exactly keys:\n    \"step_number\": integer\n    \"title\": \"Short string title for the node\",\n    \"description\": \"1 short sentence maximum (keep it extremely brief, under 15 words).\",\n    \"timeframe\": \"Short time (e.g., \x271 wk\x27, \x272 mos\x27)\",\n    \"type\": \"milestone\" | \"learning\" | \"project\" | \"job\"\n    \n    Make it 4 to 6 steps long. DO NOT include markdown wrappers or backticks. Just the pure JSON array.\n    "

/-- The `generate_internships` prompt (lines 263-268). -/
def internshipsPrompt (occupation : String) : String :=
  "\n    Create exactly 5 realistic, step-by-step mock internships for a user learning \x27"
  ++ occupation
  ++ "\x27.\n    Return ONLY a raw JSON array format with these exact keys:\n    \"title\", \"min_days\" (integer between 7-30), \"max_days\" (integer between 7-30), \"description\", \"skills_learned\", \"ai_text\" (a motivational intro), \"youtube_search_term\" (string to search on YT), \"questions\" (array of 3 interview question strings).\n    Do NOT include Markdown wrappers like ```json, just the pure array [ ... ].\n    "

/-- The `generate_quiz` prompt (lines 435-446). -/
def quizPrompt (title skillsLearned : String) : String :=
  "\n            Create exactly 10 multiple choice questions for a certification exam on \""
  ++ title ++ "\".\n            Skills covered: " ++ skillsLearned
  ++ "\n            \n            Return ONLY a raw JSON array. Each question object must have:\n            - \"question\": the question text\n            - \"options\": array of exactly 4 string choices (A, B, C, D)\n            - \"correct\": index of the correct answer (0-3)\n            \n            Make questions progressively harder. Mix theory and practical scenarios.\n            Do NOT include markdown wrappers. Just the pure array [ ... ].\n            "

/-- The `scrape_jobs` prompt (lines 634-645). -/
def jobsPrompt (query location : String) : String :=
  "\n        Generate exactly 15 highly realistic job postings for the role of \x27"
  ++ query ++ "\x27 located in or near \x27" ++ location
  ++ "\x27 (or remote).\n        Make them look like authentic, real-world listings from top known companies and startups.\n        Return ONLY a raw JSON array of objects with these exact keys:\n        \"title\" (string), \n        \"company\" (string), \n        \"location\" (string), \n        \"link\" (string, just make it realistic like \x27https://linkedin.com/jobs/view/12345\x27), \n        \"source\" (string, randomly pick from: \x27LinkedIn\x27, \x27Glassdoor\x27, \x27Indeed\x27, \x27Wellfound\x27, \x27ZipRecruiter\x27), \n        \"description\" (string, a short 1-2 sentence snippet of the job role).\n        Do NOT include Markdown wrappers like ```json. Just the pure array [ ... ].\n        "

/-- The `local_discounts_and_events` prompt (lines 784-796). -/
def vibesPrompt (city country : String) : String :=
  "\n    Find or generate 6-8 incredible \x27local vibes\x27 for someone living in "
  ++ city ++ ", " ++ country
  ++ ".\n    These should be a mix of:\n    - Current shopping discounts or sales.\n    - Upcoming community events or festivals.\n    - Trending local food spots or happy hour deals.\n    - Career-related meetups or student discounts.\n\n    Return ONLY a raw JSON array of objects with these keys:\n    \"title\", \"type\" (one of: \x27Deal\x27, \x27Event\x27, \x27Food\x27, \x27Career\x27), \"description\", \"value\" (e.g. \x2750% Off\x27 or \x27Free Entry\x27), \"location_detail\", \"image_query\" (a specific short string to use for an image search).\n\n    Do NOT include any markdown or extra text. Output pure JSON.\n    "

/-- The `grade_internship` prompt (lines 373-379); `repo_link` comes from
the request body and is rendered by the f-string. -/
def gradePrompt (repoLink : Json) (title : String) : String :=
  "\n    The user submitted a GitHub repository: " ++ pyStrJson repoLink
  ++ " for project \x27" ++ title
  ++ "\x27.\n    Provide a score out of 100 and brief feedback.\n    Format STRICTLY:\n    SCORE: 85\n    FEEDBACK: Good work.\n    "

/-- `re.search(r"SCORE:\s*(\d+)", s)` at one position: the literal
`SCORE:`, optional whitespace, then at least one digit. -/
def matchScoreAt (cs : List Char) : Option Nat :=
  if "SCORE:".data.isPrefixOf cs then
    let rest := (cs.drop 6).dropWhile isPyWs
    let ds := rest.takeWhile Char.isDigit
    if ds.isEmpty then none else some (digitsToNat ds)
  else none

def findScoreL : List Char → Option Nat
  | [] => none
  | c :: cs =>
    match matchScoreAt (c :: cs) with
    | some n => some n
    | none => findScoreL cs

/-- First `SCORE: <digits>` occurrence in the grading response. -/
def findScore (s : String) : Option Nat := findScoreL s.data

/- ## Response-text parsing, per endpoint -/

/-- The parse of `generate_internships` (lines 270-276) and
`generate_quiz` (lines 449-457): the greedy bracket span is tried FIRST;
fence stripping via `replace` happens only when no span exists.  A span
that fails `json.loads` raises into the surrounding handler (`none`). -/
def parseBracketFirst (text : String) : Option Json :=
  match bracketSpan text with
  | some sp => jsonLoads sp
  | none => jsonLoads (pyStrip (pyReplace (pyReplace text "```json" "") "```" ""))

/-- The parse of `scrape_jobs` (lines 647-662) and
`local_discounts_and_events` (lines 799-807): strip + fence split first,
then greedy bracket span, else the fence-stripped text whole. -/
def parseFencesFirst (raw : String) : Option Json :=
  let t := stripFences (pyStrip raw)
  match bracketSpan t with
  | some sp => jsonLoads sp
  | none => jsonLoads t

/-- The parse of `generate_career_plan` (lines 212-226): strip + fence
split, then `json.loads` on the remainder whole — no bracket span at all. -/
def parseFencesOnly (raw : String) : Option Json :=
  jsonLoads (stripFences (pyStrip raw))

/-- Modelled from the spec's words (§4.3 / claim C3), for comparison with
the code: if a fenced block exists its inner content is extracted and
parsed; otherwise the first-`[`-to-last-`]` span is extracted and parsed. -/
def specPriorityParse (text : String) : Option Json :=
  if pyContains text "```" then jsonLoads (stripFences text)
  else
    match bracketSpan text with
    | some sp => jsonLoads sp
    | none => none

/- ## Endpoint: generate_career_plan (lines 162-232) -/

structure CareerPlanOk where
  careerPlan : Json
  planId : Nat
  cached : Bool
deriving Repr

structure CareerPlanOut where
  resp : HttpResp CareerPlanOk
  plans : List CareerPlanRow
  nextId : Nat
  genPrompts : List String
deriving Repr

/-- `CareerPlan.objects.filter(user=user).order_by("-created_at").first()`
(ties resolved to the earlier table row; the DB order on ties is
unspecified). -/
def latestPlan (plans : List CareerPlanRow) (uid : Nat) : Option CareerPlanRow :=
  (plans.filter (fun p => p.userId == uid)).foldl
    (fun acc p =>
      match acc with
      | none => some p
      | some q => if q.createdAt < p.createdAt then some p else some q) none

/-- `generate_career_plan`: with no `extra_info`, a parseable most-recent
plan is served from the DB; otherwise a new plan is generated, stored as
raw text, and parsed — a generation or parse failure returns a 500
response (the row created before the failed parse persists).
`acceptLanguage` is the request's `Accept-Language` header: the view never
reads it (`get_lang_instruction` has no caller in the codebase). -/
def generate_career_plan (acceptLanguage : Option String) (user : UserRec)
    (extraInfo : String) (plans : List CareerPlanRow) (nextId : Nat) (now : Nat)
    (gen : GenService) : CareerPlanOut :=
  let extra := pyStrip extraInfo
  let cachedResp : Option CareerPlanOk :=
    if extra = "" then
      match latestPlan plans user.id with
      | some p =>
        match jsonLoads p.planDetails with
        | some pj => some ⟨pj, p.id, true⟩
        | none => none
      | none => none
    else none
  match cachedResp with
  | some okPayload => ⟨.ok okPayload, plans, nextId, []⟩
  | none =>
    let extraPrompt := if extra = "" then "I want to explore the best options." else extra
    let prompt := careerPlanPrompt user.occupation user.interests user.experienceLevel extraPrompt
    match gen prompt with
    | .error e => ⟨.err 500 e, plans, nextId, [prompt]⟩
    | .ok raw =>
      let text := stripFences (pyStrip raw)
      let row : CareerPlanRow := ⟨nextId, user.id, text, now⟩
      match jsonLoads text with
      | some pj => ⟨.ok ⟨pj, nextId, false⟩, plans ++ [row], nextId + 1, [prompt]⟩
      | none => ⟨.err 500 "Expecting value", plans ++ [row], nextId + 1, [prompt]⟩

/- ## Endpoint: generate_internships (lines 238-315) -/

structure InternshipsOut where
  resp : HttpResp (List (Nat × String))
  internships : List InternshipRow
  enrollments : List EnrollmentRow
  nextId : Nat
  genPrompts : List String
deriving Repr

/-- The save loop (lines 282-304): plain-string items are skipped
(`continue`); a non-dict non-string item raises into the outer handler
("Server Error"), keeping rows created before it.  `fetch_youtube_resources`
is an external collaborator, passed in as `ytFetch` over the rendered
search term. -/
def saveInternships (uid : Nat) (ytFetch : String → Json) :
    List Json → Nat → List InternshipRow × List (Nat × String) × Nat × Bool
  | [], nid => ([], [], nid, false)
  | item :: rest, nid =>
    match item with
    | .str _ => saveInternships uid ytFetch rest nid
    | .obj kvs =>
      let searchTermJ := jsonGetD kvs "youtube_search_term"
        (.str (pyStrJson (jsonGetD kvs "title" (.str "coding")) ++ " tutorial"))
      let row : InternshipRow :=
        { id := nid, userId := uid,
          title := pyStrJson (jsonGetD kvs "title" (.str "Exciting Internship")),
          minDays := jsonGetD kvs "min_days" (.int 7),
          maxDays := jsonGetD kvs "max_days" (.int 30),
          description := pyStrJson (jsonGetD kvs "description" (.str "")),
          skillsLearned := pyStrJson (jsonGetD kvs "skills_learned" (.str "")),
          aiGeneratedText := pyStrJson (jsonGetD kvs "ai_text" (.str "")),
          youtubeLinks := ytFetch (pyStrJson searchTermJ),
          interview_questions := jsonGetD kvs "questions" (.arr []),
          imageUrl := "https://res.cloudinary.com/demo/image/upload/v1312461204/sample.jpg" }
      let out := saveInternships uid ytFetch rest (nid + 1)
      (row :: out.1, (nid, row.title) :: out.2.1, out.2.2.1, out.2.2.2)
    | _ => ([], [], nid, true)

/-- Lines 252-255: `enrolled_ids` collects the internship ids enrolled by
the REQUESTING user only; the bulk delete takes the caller's internships
whose id is not among them. -/
def purgePred (uid : Nat) (enrollments : List EnrollmentRow) (i : InternshipRow) : Bool :=
  i.userId == uid &&
    !(((enrollments.filter (fun e => e.userId == uid)).map (·.internshipId)).contains i.id)

/-- `generate_internships`: after the client check, the purge deletes the
caller's internships that have no enrollment **by the caller**
(`Enrollment.objects.filter(user=user)`), cascade-deleting enrollments
that referenced a deleted internship (`on_delete=CASCADE`); then the AI
payload is parsed (bracket span first) and saved. -/
def generate_internships (user : UserRec) (ready : Bool)
    (internships : List InternshipRow) (enrollments : List EnrollmentRow)
    (nextId : Nat) (gen : GenService) (ytFetch : String → Json) : InternshipsOut :=
  if ¬ ready then
    ⟨.err 500 "AI model not initialized. Check GEMINI_API_KEY.",
      internships, enrollments, nextId, []⟩
  else
    let occupation := if user.occupation ≠ "" then user.occupation else "Software Developer"
    let isPurged := purgePred user.id enrollments
    let kept := internships.filter (fun i => !(isPurged i))
    let purged := internships.filter isPurged
    let enrollments1 := enrollments.filter (fun e => !(purged.any (fun i => i.id == e.internshipId)))
    let prompt := internshipsPrompt occupation
    match gen prompt with
    | .error e =>
      ⟨.err 500 ("AI generation failed: " ++ e), kept, enrollments1, nextId, [prompt]⟩
    | .ok text =>
      match parseBracketFirst text with
      | none =>
        ⟨.err 500 "AI generation failed: Expecting value", kept, enrollments1, nextId, [prompt]⟩
      | some data =>
        match iterItems data with
        | none => ⟨.err 500 "Server Error: not iterable", kept, enrollments1, nextId, [prompt]⟩
        | some items =>
          let out := saveInternships user.id ytFetch items nextId
          if out.2.2.2 then
            ⟨.err 500 "Server Error: attribute error", kept ++ out.1, enrollments1, out.2.2.1, [prompt]⟩
          else
            ⟨.ok out.2.1, kept ++ out.1, enrollments1, out.2.2.1, [prompt]⟩

/- ## Endpoint: generate_quiz (lines 409-482) -/

/-- The pre-built check (lines 419-424):
`iq and len(iq) >= 10 and isinstance(iq[0], dict) and "options" in iq[0]`.
`none` = the Python expression itself raises (`len` of a number, or
indexing a large dict by `0`). -/
def quizPrebuiltCheck : Json → Option Bool
  | .null => some false
  | .bool b => if b then none else some false
  | .int n => if n = 0 then some false else none
  | .str _ => some false
  | .arr l =>
    some (!l.isEmpty && decide (l.length ≥ 10) &&
      (match l.head? with
       | some (.obj kvs) => jsonHasKey kvs "options"
       | _ => false))
  | .obj kvs => if kvs.isEmpty then some false else if kvs.length ≥ 10 then none else some false

/-- Lines 473-480: the answer-stripping projection of one stored question;
`none` = `q.get` raised (`q` not a dict). -/
def safeQuestion : Json → Option Json
  | .obj kvs =>
    some (.obj [("question", jsonGetD kvs "question" (.str "")),
                ("options", jsonGetD kvs "options" (.arr []))])
  | _ => none

/-- A Python loop that raises at the first bad element: `none` aborts the
whole traversal. -/
def mapOption {α β : Type} (f : α → Option β) : List α → Option (List β)
  | [] => some []
  | x :: xs =>
    match f x, mapOption f xs with
    | some y, some ys => some (y :: ys)
    | _, _ => none

/-- The full projection loop over the stored question set. -/
def safeQuestions (questions : Json) : Option (List Json) :=
  match iterItems questions with
  | some items => mapOption safeQuestion items
  | none => none

/-- `quiz_shared_<sanitized lowercased title>` (lines 429-430). -/
def quizKey (title : String) : String :=
  "quiz_shared_" ++ sanitizeNonAlnum (pyLower title)

structure QuizOk where
  questions : List Json
  total : Nat
deriving Repr

structure QuizOut where
  resp : HttpResp QuizOk
  internAfter : InternshipRow
  cacheAfter : CacheStore
  genPrompts : List String
deriving Repr

/-- Lines 472-482: the `Response` built from a question set — the stripped
projection, or the unhandled exception when an element is not a dict. -/
def quizProject (questions : Json) : HttpResp QuizOk :=
  match safeQuestions questions with
  | some sq => .ok ⟨sq, sq.length⟩
  | none => .crash

/-- `generate_quiz`: DB-stored quiz first; else the shared cache under the
sanitized-title key; else generation (bracket-first parse), cached for
86400 s and stored on the internship; the response strips each question
to its `question` and `options` keys. -/
def generate_quiz (intern : InternshipRow) (cache : CacheStore) (now : Nat)
    (gen : GenService) : QuizOut :=
  match quizPrebuiltCheck intern.interview_questions with
  | none => ⟨.crash, intern, cache, []⟩
  | some true => ⟨quizProject intern.interview_questions, intern, cache, []⟩
  | some false =>
    let key := quizKey intern.title
    let hitVal : Option Json :=
      match cacheGet cache key now with
      | some v => if v.isTruthy then some v else none
      | none => none
    match hitVal with
    | some v => ⟨quizProject v, { intern with interview_questions := v }, cache, []⟩
    | none =>
      let prompt := quizPrompt intern.title intern.skillsLearned
      match gen prompt with
      | .error e => ⟨.err 500 ("Failed to generate quiz: " ++ e), intern, cache, [prompt]⟩
      | .ok text =>
        match parseBracketFirst text with
        | none => ⟨.err 500 "Failed to generate quiz: Expecting value", intern, cache, [prompt]⟩
        | some qs =>
          ⟨quizProject qs, { intern with interview_questions := qs },
            cacheSet cache key qs 86400 now, [prompt]⟩

/- ## Endpoint: submit_quiz (lines 485-541) -/

def enrollPred (uid iid : Nat) (e : EnrollmentRow) : Bool :=
  e.userId == uid && e.internshipId == iid

/-- Model-level field defaults of `Enrollment`. -/
def defaultEnrollment (uid iid : Nat) : EnrollmentRow :=
  ⟨uid, iid, "Enrolled", .null, .null, .null, .null, none, ""⟩

def updateFirst {α : Type} (p : α → Bool) (f : α → α) : List α → List α
  | [] => []
  | x :: xs => if p x then f x :: xs else x :: updateFirst p f xs

/-- `Enrollment.objects.get_or_create(user=..., internship=...)` followed
by field updates and `save()`: the first matching row is updated, a
missing row is appended. -/
def upsertEnrollment (enrolls : List EnrollmentRow) (uid iid : Nat)
    (f : EnrollmentRow → EnrollmentRow) : List EnrollmentRow :=
  if enrolls.any (enrollPred uid iid) then updateFirst (enrollPred uid iid) f enrolls
  else enrolls ++ [f (defaultEnrollment uid iid)]

structure SubmitResultRow where
  question : Json
  yourAnswer : Json
  correctAnswer : Json
  isCorrect : Bool
deriving Repr

structure SubmitOk where
  score : Nat
  correct : Nat
  total : Nat
  passed : Bool
  results : List SubmitResultRow
  feedback : String
deriving Repr

structure SubmitOut where
  resp : HttpResp SubmitOk
  enrollments : List EnrollmentRow
deriving Repr

/-- One iteration of the grading loop (lines 504-517): the submitted
index at position `i` (missing → `-1`), the stored `correct` index
(missing key → `0`), and their comparison; `none` = `q.get` raised. -/
def gradeOne (answers : List Json) (i : Nat) (q : Json) : Option SubmitResultRow :=
  match q with
  | .obj kvs =>
    let ua := answers.getD i (.int (-1))
    let ci := jsonGetD kvs "correct" (.int 0)
    some ⟨jsonGetD kvs "question" (.str ""), ua, ci, jsonBeq ua ci⟩
  | _ => none

/-- `submit_quiz`: grades the submitted indices against the stored set,
scores with the float computation `round((correct / total) * 100)`,
passes at 60, reveals `correct_answer` per question, and upserts the
enrollment (status `Graded` on pass). -/
def submit_quiz (uid : Nat) (intern : InternshipRow) (answers : List Json)
    (enrollments : List EnrollmentRow) : SubmitOut :=
  let questions : Json :=
    if intern.interview_questions.isTruthy then intern.interview_questions else .arr []
  if ¬ questions.isTruthy then
    ⟨.err 400 "No quiz found. Generate one first.", enrollments⟩
  else
    match iterItems questions with
    | none => ⟨.crash, enrollments⟩
    | some items =>
      match mapOption (fun p => gradeOne answers p.1 p.2) items.enum with
      | none => ⟨.crash, enrollments⟩
      | some results =>
        let correctCount := (results.filter (·.isCorrect)).length
        let total := items.length
        let score := if total > 0 then pyScore100 correctCount total else 0
        let passed := decide (60 ≤ score)
        let feedback := "Quiz Result: " ++ toString correctCount ++ "/" ++ toString total
          ++ " correct (" ++ toString score ++ "%). "
          ++ (if passed then "PASSED ✅" else "FAILED ❌")
        let enrolls' := upsertEnrollment enrollments uid intern.id (fun e =>
          { e with aiScore := some (score : Int), aiFeedback := feedback,
                   status := if passed then "Graded" else e.status })
        ⟨.ok ⟨score, correctCount, total, passed, results, feedback⟩, enrolls'⟩

/- ## Endpoint: grade_internship (lines 359-403) -/

structure GradeOut where
  resp : HttpResp (Int × String)
  enrollments : List EnrollmentRow
deriving Repr

/-- `grade_internship`: a generation failure surfaces as a 500 error; on
success the score is the first `SCORE: <n>` match (default 80) and the
enrollment is upserted to `Graded`. -/
def grade_internship (uid : Nat) (intern : InternshipRow)
    (repoLink timeTaken difficulty userRating : Json)
    (enrollments : List EnrollmentRow) (gen : GenService) : GradeOut :=
  let prompt := gradePrompt repoLink intern.title
  match gen prompt with
  | .error e => ⟨.err 500 ("Grading failed: " ++ e), enrollments⟩
  | .ok aiResp =>
    let score : Int := match findScore aiResp with | some n => (n : Int) | none => 80
    let enrolls' := upsertEnrollment enrollments uid intern.id (fun e =>
      { e with status := "Graded", repoLink := repoLink, timeTakenDays := timeTaken,
               difficultyRating := difficulty, userRating := userRating,
               aiScore := some score, aiFeedback := aiResp })
    ⟨.ok (score, aiResp), enrolls'⟩

/- ## Endpoint: scrape_jobs (lines 599-716) -/

/-- Lines 608-618: the stripped `query` parameter, falling back to the
profile's occupation, first skill, or "Software Developer". -/
def jobsQueryUsed (user : UserRec) (queryParam : String) : String :=
  let q0 := pyStrip queryParam
  if q0 ≠ "" then q0
  else if user.occupation ≠ "" then user.occupation
  else
    match user.skills with
    | s :: _ => s
    | [] => "Software Developer"

/-- Lines 620-625: the stripped `location` parameter, falling back to the
profile's city then country, else empty. -/
def jobsLocationUsed (user : UserRec) (locationParam : String) : String :=
  let l0 := pyStrip locationParam
  if l0 ≠ "" then l0
  else if user.city ≠ "" then user.city
  else if user.country ≠ "" then user.country
  else ""

/-- `jobs_v2_<query>_<location>` with spaces underscored and lowercased
(line 629). -/
def jobsKey (query location : String) : String :=
  "jobs_v2_" ++ pyLower (pyReplace query " " "_") ++ "_" ++ pyLower (pyReplace location " " "_")

/-- One row of the save loop (lines 678-704); non-dict items raise inside
the per-item `try` and are skipped (`none`). -/
def mkJobRow (uid : Nat) (query location : String) (nid : Nat) : Json → Option ScrapedJobRow
  | .obj kvs =>
    let searchTerm := pyStrJson (jsonGetD kvs "title" (.str query)) ++ " job "
      ++ pyStrJson (jsonGetD kvs "company" (.str ""))
    some
      { id := nid, userId := uid,
        title := jsonGetD kvs "title" (.str (query ++ " Professional")),
        company := jsonGetD kvs "company" (.str "Tech Innovations Inc."),
        location := jsonGetD kvs "location" (.str (if location ≠ "" then location else "Remote")),
        link := "https://www.google.com/search?q=" ++ quotePlus searchTerm,
        source := jsonGetD kvs "source" (.str "Web"),
        description := jsonGetD kvs "description" (.str "A fantastic opportunity.") }
  | _ => none

/-- The save loop over the parsed payload items. -/
def saveJobs (uid : Nat) (query location : String) :
    List Json → Nat → List ScrapedJobRow × Nat
  | [], nid => ([], nid)
  | item :: rest, nid =>
    match mkJobRow uid query location nid item with
    | some row =>
      let out := saveJobs uid query location rest (nid + 1)
      (row :: out.1, out.2)
    | none => saveJobs uid query location rest nid

/-- The cache-miss branch of `scrape_jobs` (lines 632-668): generate,
parse (fences first, then bracket span), cache for 86400 s on parse
success; any generation or parse failure degrades to `[]` with nothing
cached. -/
def fetchJobsData (key : String) (cache : CacheStore) (now : Nat)
    (query location : String) (gen : GenService) : Json × CacheStore × List String :=
  let prompt := jobsPrompt query location
  match gen prompt with
  | .error _ => (.arr [], cache, [prompt])
  | .ok raw =>
    match parseFencesFirst raw with
    | some j => (j, cacheSet cache key j 86400 now, [prompt])
    | none => (.arr [], cache, [prompt])

structure JobsOk where
  count : Nat
  queryUsed : String
  locationUsed : String
  jobs : List ScrapedJobRow
deriving Repr

structure JobsOut where
  resp : HttpResp JobsOk
  cacheAfter : CacheStore
  jobsAfter : List ScrapedJobRow
  nextId : Nat
  genPrompts : List String
deriving Repr

/-- `scrape_jobs`: query/location fall back to the profile; the shared
cache is read under the normalized key (a falsy cached value counts as a
miss); on miss the payload is generated and parsed (fences first, then
bracket span), cached only on parse success, and `[]` is the fallback on
any failure; the caller's old `ScrapedJob` rows are deleted
unconditionally before the new ones are saved. -/
def scrape_jobs (user : UserRec) (queryParam locationParam : String)
    (cache : CacheStore) (jobs : List ScrapedJobRow) (nextId : Nat) (now : Nat)
    (gen : GenService) : JobsOut :=
  let query := jobsQueryUsed user queryParam
  let location := jobsLocationUsed user locationParam
  let key := jobsKey query location
  let afterFetch : Json × CacheStore × List String :=
    match cacheGet cache key now with
    | some v =>
      if v.isTruthy then (v, cache, [])
      else fetchJobsData key cache now query location gen
    | none => fetchJobsData key cache now query location gen
  let jobsData := afterFetch.1
  let cache' := afterFetch.2.1
  let prompts := afterFetch.2.2
  let kept := jobs.filter (fun r => ¬ r.userId = user.id)
  if ¬ jobsData.isTruthy then
    ⟨.ok ⟨0, query, location, []⟩, cache', kept, nextId, prompts⟩
  else
    match iterItems jobsData with
    | none => ⟨.crash, cache', kept, nextId, prompts⟩
    | some items =>
      let out := saveJobs user.id query location items nextId
      ⟨.ok ⟨out.1.length, query, location, out.1⟩, cache', kept ++ out.1, out.2, prompts⟩

/- ## Endpoint: local_discounts_and_events (lines 756-852) -/

/-- The hand-authored 3-item fallback list (lines 825-850). -/
def defaultVibes : Json :=
  .arr
    [ .obj [("title", .str "Global Fusion Festival"), ("type", .str "Event"),
            ("description", .str "A celebration of local culture and food."),
            ("value", .str "Free Entry"), ("location_detail", .str "Downtown Plaza"),
            ("image_query", .str "festival crowd")],
      .obj [("title", .str "Tech Career Mixer"), ("type", .str "Career"),
            ("description", .str "Networking with local innovators."),
            ("value", .str "Invite Only"), ("location_detail", .str "Innovation Hub"),
            ("image_query", .str "networking event")],
      .obj [("title", .str "Student Night Out"), ("type", .str "Deal"),
            ("description", .str "Exclusive discounts for verified students."),
            ("value", .str "30% Off Everything"), ("location_detail", .str "City Center"),
            ("image_query", .str "shopping mall")]]

/-- `city__iexact=city, country__iexact=country` row match. -/
def vibeMatches (city country : String) (r : LocalVibeRow) : Bool :=
  pyLower r.city == pyLower city && pyLower r.country == pyLower country

/-- `.filter(city__iexact=..., country__iexact=...).first()`. -/
def vibeFind (rows : List LocalVibeRow) (city country : String) : Option LocalVibeRow :=
  rows.find? (vibeMatches city country)

/-- `.filter(city__iexact=..., country__iexact=...).delete()`. -/
def vibeDelete (rows : List LocalVibeRow) (city country : String) : List LocalVibeRow :=
  rows.filter (fun r => ¬ vibeMatches city country r)

/-- `LocalVibe.objects.update_or_create(city=city, country=country, ...)`
— note the lookup here is case-SENSITIVE, unlike the reads. -/
def vibeUpsert (rows : List LocalVibeRow) (city country : String) (offers : Json) :
    List LocalVibeRow :=
  if rows.any (fun r => r.city == city && r.country == country) then
    updateFirst (fun r => r.city == city && r.country == country)
      (fun r => { r with offers := offers }) rows
  else rows ++ [⟨city, country, offers⟩]

structure VibeOut where
  resp : HttpResp (String × Json)
  vibesAfter : List LocalVibeRow
  genPrompts : List String
deriving Repr

/-- The recovery path of `local_discounts_and_events` (lines 815-852):
serve a (possibly just-requeried) truthy DB row, else the hand-authored
default trio — always HTTP success. -/
def vibeFallback (locStr : String) (rows : List LocalVibeRow)
    (city country : String) (prompts : List String) : VibeOut :=
  match vibeFind rows city country with
  | some r => if r.offers.isTruthy then ⟨.ok (locStr, r.offers), rows, prompts⟩
              else ⟨.ok (locStr, defaultVibes), rows, prompts⟩
  | none => ⟨.ok (locStr, defaultVibes), rows, prompts⟩

/-- Lines 763-764: `(user.city or "New York").strip()` and the country
analogue. -/
def vibeCityUsed (user : UserRec) : String :=
  pyStrip (if user.city ≠ "" then user.city else "New York")

def vibeCountryUsed (user : UserRec) : String :=
  pyStrip (if user.country ≠ "" then user.country else "USA")

/-- `local_discounts_and_events`: without `refresh`, a truthy durable row
short-circuits; with `refresh=true` the row is deleted first and the
lookup skipped; generation output is parsed (fences first, then bracket
span) and upserted; on any failure the endpoint falls back to a stale
row or the default trio, never an error status.  (A successful parse to
a number still reaches the upsert, then the `len(events)` log line
raises and the handler serves the just-written row.) -/
def local_discounts_and_events (user : UserRec) (refreshParam : String)
    (rows : List LocalVibeRow) (gen : GenService) : VibeOut :=
  let city := vibeCityUsed user
  let country := vibeCountryUsed user
  let refresh := pyLower refreshParam == "true"
  let locStr := city ++ ", " ++ country
  let short : Option Json :=
    if ¬ refresh then
      match vibeFind rows city country with
      | some r => if r.offers.isTruthy then some r.offers else none
      | none => none
    else none
  match short with
  | some offers => ⟨.ok (locStr, offers), rows, []⟩
  | none =>
    let rows1 := if refresh then vibeDelete rows city country else rows
    let prompt := vibesPrompt city country
    match gen prompt with
    | .error _ => vibeFallback locStr rows1 city country [prompt]
    | .ok raw =>
      match parseFencesFirst raw with
      | none => vibeFallback locStr rows1 city country [prompt]
      | some events =>
        let rows2 := vibeUpsert rows1 city country events
        match events with
        | .arr _ => ⟨.ok (locStr, events), rows2, [prompt]⟩
        | .str _ => ⟨.ok (locStr, events), rows2, [prompt]⟩
        | .obj _ => ⟨.ok (locStr, events), rows2, [prompt]⟩
        | _ => vibeFallback locStr rows2 city country [prompt]

/- ## Auxiliary notions used by the theorems -/

/-- Erase the `correct` bindings of one question object (identity on
non-objects): two questions are "equal except for their correct-answer
values" when their erasures coincide. -/
def scrubCorrect : Json → Json
  | .obj kvs => .obj (kvs.filter (fun p => ¬ p.1 = "correct"))
  | j => j

/-- Erase the `correct` bindings of every question of a stored set. -/
def scrubCorrectSet : Json → Json
  | .arr l => .arr (l.map scrubCorrect)
  | j => j

/- # Theorems -/

set_option maxRecDepth 100000

/- ## Shared helper lemmas -/

theorem mapOption_length {α β : Type} {f : α → Option β} :
    ∀ {xs : List α} {ys : List β}, mapOption f xs = some ys → ys.length = xs.length := by
  intro xs
  induction xs with
  | nil => intro ys h; simp [mapOption] at h; simp [← h]
  | cons x rest ih =>
    intro ys h
    simp only [mapOption] at h
    cases hfx : f x with
    | none => rw [hfx] at h; simp at h
    | some y =>
      rw [hfx] at h
      cases hrest : mapOption f rest with
      | none => rw [hrest] at h; simp at h
      | some ys' =>
        rw [hrest] at h
        simp at h
        simp [← h, List.length_cons, ih hrest]

theorem mapOption_mem {α β : Type} {f : α → Option β} :
    ∀ {xs : List α} {ys : List β}, mapOption f xs = some ys →
      ∀ y ∈ ys, ∃ x ∈ xs, f x = some y := by
  intro xs
  induction xs with
  | nil =>
    intro ys h y hy
    simp [mapOption] at h
    subst h
    exact absurd hy (List.not_mem_nil y)
  | cons x rest ih =>
    intro ys h y hy
    simp only [mapOption] at h
    cases hfx : f x with
    | none => rw [hfx] at h; simp at h
    | some y' =>
      rw [hfx] at h
      cases hrest : mapOption f rest with
      | none => rw [hrest] at h; simp at h
      | some ys' =>
        rw [hrest] at h
        simp at h
        rw [← h] at hy
        rcases List.mem_cons.mp hy with h1 | h2
        · exact ⟨x, List.mem_cons_self _ _, by rw [hfx, h1]⟩
        · obtain ⟨x', hx', hfx'⟩ := ih hrest y h2
          exact ⟨x', List.mem_cons_of_mem _ hx', hfx'⟩

theorem mapOption_get {α β : Type} {f : α → Option β} :
    ∀ {xs : List α} {ys : List β}, mapOption f xs = some ys →
      ∀ i (h : i < xs.length) (h' : i < ys.length),
        f (xs.get ⟨i, h⟩) = some (ys.get ⟨i, h'⟩) := by
  intro xs
  induction xs with
  | nil => intro ys h i hi; simp at hi
  | cons x rest ih =>
    intro ys h i hi hi'
    simp only [mapOption] at h
    cases hfx : f x with
    | none => rw [hfx] at h; simp at h
    | some y =>
      rw [hfx] at h
      cases hrest : mapOption f rest with
      | none => rw [hrest] at h; simp at h
      | some ys' =>
        rw [hrest] at h
        simp at h
        subst h
        cases i with
        | zero => simpa using hfx
        | succ n =>
          simp only [List.get_cons_succ]
          exact ih hrest n (Nat.lt_of_succ_lt_succ hi) (Nat.lt_of_succ_lt_succ hi')

theorem jsonGetD_scrub (kvs : List (String × Json)) (k : String) (d : Json)
    (hk : ¬ k = "correct") :
    jsonGetD (kvs.filter (fun p => ¬ p.1 = "correct")) k d = jsonGetD kvs k d := by
  induction kvs with
  | nil => rfl
  | cons p rest ih =>
    rcases p with ⟨k0, v0⟩
    by_cases hp : k0 = "correct"
    · have h1 : (((k0, v0) :: rest).filter (fun p => ¬ p.1 = "correct"))
          = rest.filter (fun p => ¬ p.1 = "correct") := by
        simp [List.filter_cons, hp]
      rw [h1, ih]
      have hpk : ¬ (k0 = k) := by rw [hp]; exact fun h => hk h.symm
      simp [jsonGetD, hpk]
    · have h1 : (((k0, v0) :: rest).filter (fun p => ¬ p.1 = "correct"))
          = (k0, v0) :: rest.filter (fun p => ¬ p.1 = "correct") := by
        simp [List.filter_cons, hp]
      rw [h1]
      by_cases hpk : k0 = k
      · simp [jsonGetD, hpk]
      · simp [jsonGetD, hpk]
        simpa using ih

theorem jsonHasKey_scrub (kvs : List (String × Json)) (k : String)
    (hk : ¬ k = "correct") :
    jsonHasKey (kvs.filter (fun p => ¬ p.1 = "correct")) k = jsonHasKey kvs k := by
  induction kvs with
  | nil => rfl
  | cons p rest ih =>
    rcases p with ⟨k0, v0⟩
    by_cases hp : k0 = "correct"
    · have h1 : (((k0, v0) :: rest).filter (fun p => ¬ p.1 = "correct"))
          = rest.filter (fun p => ¬ p.1 = "correct") := by
        simp [List.filter_cons, hp]
      rw [h1, ih]
      have hpk : ¬ (k0 = k) := by rw [hp]; exact fun h => hk h.symm
      simp [jsonHasKey, hpk]
    · have h1 : (((k0, v0) :: rest).filter (fun p => ¬ p.1 = "correct"))
          = (k0, v0) :: rest.filter (fun p => ¬ p.1 = "correct") := by
        simp [List.filter_cons, hp]
      rw [h1]
      by_cases hpk : k0 = k
      · simp [jsonHasKey, hpk]
      · simp [jsonHasKey, hpk]
        simpa using ih

/- ## C3: response-parsing priority order -/

/-- C3 (counterexample): the claimed priority order — fenced content
first, bracket span only otherwise — does not describe the code.  On a
text carrying both a stray bracket and a `json` fence, the spec-described
parser extracts the fenced `[1,2]`, but `generate_internships`' parser
(bracket span first) takes the span from the stray `[9]` to the last `]`
and fails; and on fence-less text with surrounding commentary,
`generate_career_plan`'s parser has no bracket-span fallback at all and
fails where the spec-described parser succeeds. -/
theorem c3_parse_priority_counterexample :
    (specPriorityParse "see [9] then ```json\n[1,2]\n``` end" = some (.arr [.int 1, .int 2]) ∧
     parseBracketFirst "see [9] then ```json\n[1,2]\n``` end" = none) ∧
    (specPriorityParse "note [1,2] more" = some (.arr [.int 1, .int 2]) ∧
     parseFencesOnly "note [1,2] more" = none) :=
  ⟨⟨rfl, rfl⟩, ⟨rfl, rfl⟩⟩

/-- C3 (amended): the actual per-endpoint order.  `generate_internships`
and `generate_quiz` try the greedy first-`[`-to-last-`]` span FIRST and
fall back to fence-`replace` stripping only when no span exists;
`generate_career_plan` only splits fences and parses the remainder whole;
`scrape_jobs` and `local_discounts_and_events` split fences first and
apply the bracket span to the fence-stripped text. -/
theorem c3_parse_priority_amended (t : String) :
    (∀ sp, bracketSpan t = some sp → parseBracketFirst t = jsonLoads sp) ∧
    (bracketSpan t = none →
      parseBracketFirst t =
        jsonLoads (pyStrip (pyReplace (pyReplace t "```json" "") "```" ""))) ∧
    (parseFencesOnly t = jsonLoads (stripFences (pyStrip t))) ∧
    (∀ sp, bracketSpan (stripFences (pyStrip t)) = some sp →
      parseFencesFirst t = jsonLoads sp) ∧
    (bracketSpan (stripFences (pyStrip t)) = none →
      parseFencesFirst t = jsonLoads (stripFences (pyStrip t))) := by
  refine ⟨?_, ?_, rfl, ?_, ?_⟩
  · intro sp h; simp [parseBracketFirst, h]
  · intro h; simp [parseBracketFirst, h]
  · intro sp h; simp [parseFencesFirst, h]
  · intro h; simp [parseFencesFirst, h]

/-- Witness for `c3_parse_priority_amended` at two concrete texts: one
with a bracket span, one without. -/
theorem c3_parse_priority_amended_witness :
    (parseBracketFirst "ok [1] end" = jsonLoads "[1]" ∧
     parseFencesFirst "ok [1] end" = jsonLoads "[1]") ∧
    (parseBracketFirst "plain prose" = jsonLoads "plain prose" ∧
     parseFencesFirst "plain prose" = jsonLoads "plain prose") := by
  constructor
  · exact ⟨(c3_parse_priority_amended "ok [1] end").1 "[1]" rfl,
      (c3_parse_priority_amended "ok [1] end").2.2.2.1 "[1]" rfl⟩
  · exact ⟨by simpa using (c3_parse_priority_amended "plain prose").2.1 rfl,
      by simpa using (c3_parse_priority_amended "plain prose").2.2.2.2 rfl⟩

/- ## C8: locale instruction -/

/-- C8 (counterexample): with `Accept-Language: tr` — the one recognized
non-default locale, for which `get_lang_instruction` produces a
non-empty Turkish-forcing suffix — the career-plan endpoint still sends
its prompt WITHOUT that suffix: `get_lang_instruction` has no caller, so
no generation request carries a locale instruction. -/
theorem c8_locale_counterexample :
    get_lang_instruction (some "tr") = turkishInstruction ∧
    turkishInstruction ≠ "" ∧
    (generate_career_plan (some "tr") ⟨1, "Dev", .arr [], 2, [], "", ""⟩ "Grow fast"
        [] 0 9 (fun _ => .ok "[]")).genPrompts
      = [careerPlanPrompt "Dev" (.arr []) 2 "Grow fast"] ∧
    pyContains (careerPlanPrompt "Dev" (.arr []) 2 "Grow fast") turkishInstruction = false := by
  refine ⟨rfl, by decide, rfl, rfl⟩

/-- C8 (amended): `get_lang_instruction` maps the `Accept-Language`
header to the Turkish-forcing suffix exactly for `tr` and to the empty
string otherwise — but no endpoint consults it: the career-plan view's
behaviour (response, rows, prompts sent) is identical under any two
`Accept-Language` headers. -/
theorem c8_locale_amended (h h₂ : Option String) (user : UserRec) (extra : String)
    (plans : List CareerPlanRow) (nid now : Nat) (gen : GenService) :
    get_lang_instruction h = (if h = some "tr" then turkishInstruction else "") ∧
    generate_career_plan h user extra plans nid now gen
      = generate_career_plan h₂ user extra plans nid now gen := by
  constructor
  · cases h with
    | none => rfl
    | some s => simp [get_lang_instruction, Option.getD]
  · rfl

/- ## C1: internship purge protection -/

/-- C1 (counterexample): an enrollment by a DIFFERENT user does not
protect an internship.  User 2 enrolled in user 1's internship 1 (the
enroll endpoint has no ownership check); user 1's regeneration still
deletes internship 1 — and the cascade removes user 2's enrollment. -/
theorem c1_purge_counterexample :
    let intern : InternshipRow := ⟨1, 1, "T", .int 7, .int 30, "", "", "", .arr [], .arr [], ""⟩
    let enr : EnrollmentRow := ⟨2, 1, "Enrolled", .null, .null, .null, .null, none, ""⟩
    let out := generate_internships ⟨1, "Dev", .arr [], 1, [], "", ""⟩ true [intern] [enr]
        10 (fun _ => .error "down") (fun _ => .arr [])
    enr.internshipId = intern.id ∧ out.internships = [] ∧ out.enrollments = [] :=
  ⟨rfl, rfl, rfl⟩

theorem generate_internships_kept (user : UserRec) (interns : List InternshipRow)
    (enrolls : List EnrollmentRow) (nid : Nat) (gen : GenService) (yt : String → Json) :
    ∃ rows, (generate_internships user true interns enrolls nid gen yt).internships
      = interns.filter (fun j => !(purgePred user.id enrolls j)) ++ rows := by
  simp only [generate_internships, not_true, if_false]
  split
  · exact ⟨[], by simp⟩
  · split
    · exact ⟨[], by simp⟩
    · split
      · exact ⟨[], by simp⟩
      · split
        · exact ⟨_, rfl⟩
        · exact ⟨_, rfl⟩

/-- C1 (amended): regeneration never deletes an internship that has an
enrollment BY THE REQUESTING USER, in any status; internships of other
users are untouched; and every deleted internship belonged to the caller
and had no enrollment by the caller (enrollments by other users do not
protect it). -/
theorem c1_purge_amended (user : UserRec) (ready : Bool) (interns : List InternshipRow)
    (enrolls : List EnrollmentRow) (nid : Nat) (gen : GenService) (yt : String → Json)
    (i : InternshipRow) (hi : i ∈ interns) :
    ((∃ e ∈ enrolls, e.userId = user.id ∧ e.internshipId = i.id) →
      i ∈ (generate_internships user ready interns enrolls nid gen yt).internships) ∧
    (¬ i.userId = user.id →
      i ∈ (generate_internships user ready interns enrolls nid gen yt).internships) ∧
    (i ∉ (generate_internships user ready interns enrolls nid gen yt).internships →
      i.userId = user.id ∧ ∀ e ∈ enrolls, e.userId = user.id → ¬ e.internshipId = i.id) := by
  cases ready with
  | false =>
    have hout : (generate_internships user false interns enrolls nid gen yt).internships
        = interns := rfl
    rw [hout]
    exact ⟨fun _ => hi, fun _ => hi, fun hni => absurd hi hni⟩
  | true =>
    obtain ⟨rows, hrows⟩ := generate_internships_kept user interns enrolls nid gen yt
    rw [hrows]
    refine ⟨?_, ?_, ?_⟩
    · rintro ⟨e, he, heu, hei⟩
      apply List.mem_append_left
      apply List.mem_filter.mpr
      refine ⟨hi, ?_⟩
      simp [purgePred, List.contains_iff_exists_mem_beq]
      exact Or.inr ⟨e, ⟨he, heu⟩, hei⟩
    · intro hne
      apply List.mem_append_left
      exact List.mem_filter.mpr ⟨hi, by simp [purgePred, hne]⟩
    · intro hni
      have hnk : i ∉ interns.filter (fun j => !(purgePred user.id enrolls j)) :=
        fun hk => hni (List.mem_append_left _ hk)
      have hpurge : purgePred user.id enrolls i = true := by
        by_contra hp
        exact hnk (List.mem_filter.mpr ⟨hi, by simp [Bool.not_eq_true] at hp; simp [hp]⟩)
      simp only [purgePred, Bool.and_eq_true, beq_iff_eq, Bool.not_eq_true'] at hpurge
      obtain ⟨huid, hcont⟩ := hpurge
      refine ⟨huid, ?_⟩
      intro e he heu hei
      rw [List.contains_eq_any_beq] at hcont
      simp [List.any_eq_true] at hcont
      exact hcont i.id e he heu hei rfl

/-- Witness for `c1_purge_amended`: a `Graded` enrollment by the caller
keeps the internship through regeneration. -/
theorem c1_purge_amended_witness :
    (⟨1, 1, "T", .int 7, .int 30, "", "", "", .arr [], .arr [], ""⟩ : InternshipRow) ∈
      (generate_internships ⟨1, "Dev", .arr [], 1, [], "", ""⟩ true
        [⟨1, 1, "T", .int 7, .int 30, "", "", "", .arr [], .arr [], ""⟩]
        [⟨1, 1, "Graded", .null, .null, .null, .null, none, ""⟩] 10
        (fun _ => .error "down") (fun _ => .arr [])).internships :=
  (c1_purge_amended _ true _ _ 10 _ _ _ (List.mem_singleton.mpr rfl)).1
    ⟨⟨1, 1, "Graded", .null, .null, .null, .null, none, ""⟩, List.mem_singleton.mpr rfl, rfl, rfl⟩

/- ## C7: refresh semantics of the durable local-vibes cache -/

theorem vibeFind_delete (rows : List LocalVibeRow) (city country : String) :
    vibeFind (vibeDelete rows city country) city country = none := by
  induction rows with
  | nil => rfl
  | cons r rest ih =>
    unfold vibeDelete at ih ⊢
    by_cases hr : vibeMatches city country r
    · rw [List.filter_cons_of_neg]
      · exact ih
      · simp [hr]
    · rw [List.filter_cons_of_pos]
      · unfold vibeFind at ih ⊢
        rw [List.find?_cons_of_neg]
        · exact ih
        · simp [hr]
      · simp [hr]

theorem vibeFallback_genPrompts (L : String) (R : List LocalVibeRow)
    (c k : String) (P : List String) : (vibeFallback L R c k P).genPrompts = P := by
  unfold vibeFallback
  split
  · split <;> rfl
  · rfl

theorem vibeFallback_deleted (L : String) (rows : List LocalVibeRow)
    (c k : String) (P : List String) :
    vibeFallback L (vibeDelete rows c k) c k P
      = ⟨.ok (L, defaultVibes), vibeDelete rows c k, P⟩ := by
  unfold vibeFallback
  rw [vibeFind_delete]

/-- C7: with `refresh=true`, the pre-existing-row lookup is skipped and
the generation attempt is always made — the prompt is sent no matter
what rows exist — and the durable row for the caller's city/country is
deleted BEFORE generation: if generation then fails, the response is the
hand-authored default trio and the deleted row is gone for good. -/
theorem c7_refresh_semantics (user : UserRec) (rows : List LocalVibeRow) (gen : GenService) :
    (local_discounts_and_events user "true" rows gen).genPrompts
      = [vibesPrompt (vibeCityUsed user) (vibeCountryUsed user)] ∧
    (∀ e, gen (vibesPrompt (vibeCityUsed user) (vibeCountryUsed user)) = .error e →
      (local_discounts_and_events user "true" rows gen).resp
        = .ok (vibeCityUsed user ++ ", " ++ vibeCountryUsed user, defaultVibes) ∧
      (local_discounts_and_events user "true" rows gen).vibesAfter
        = vibeDelete rows (vibeCityUsed user) (vibeCountryUsed user)) := by
  have hout : local_discounts_and_events user "true" rows gen
      = (match gen (vibesPrompt (vibeCityUsed user) (vibeCountryUsed user)) with
        | .error _ =>
          vibeFallback (vibeCityUsed user ++ ", " ++ vibeCountryUsed user)
            (vibeDelete rows (vibeCityUsed user) (vibeCountryUsed user))
            (vibeCityUsed user) (vibeCountryUsed user)
            [vibesPrompt (vibeCityUsed user) (vibeCountryUsed user)]
        | .ok raw =>
          match parseFencesFirst raw with
          | none =>
            vibeFallback (vibeCityUsed user ++ ", " ++ vibeCountryUsed user)
              (vibeDelete rows (vibeCityUsed user) (vibeCountryUsed user))
              (vibeCityUsed user) (vibeCountryUsed user)
              [vibesPrompt (vibeCityUsed user) (vibeCountryUsed user)]
          | some events =>
            let rows2 := vibeUpsert
              (vibeDelete rows (vibeCityUsed user) (vibeCountryUsed user))
              (vibeCityUsed user) (vibeCountryUsed user) events
            match events with
            | .arr _ => ⟨.ok (vibeCityUsed user ++ ", " ++ vibeCountryUsed user, events), rows2,
                [vibesPrompt (vibeCityUsed user) (vibeCountryUsed user)]⟩
            | .str _ => ⟨.ok (vibeCityUsed user ++ ", " ++ vibeCountryUsed user, events), rows2,
                [vibesPrompt (vibeCityUsed user) (vibeCountryUsed user)]⟩
            | .obj _ => ⟨.ok (vibeCityUsed user ++ ", " ++ vibeCountryUsed user, events), rows2,
                [vibesPrompt (vibeCityUsed user) (vibeCountryUsed user)]⟩
            | _ =>
              vibeFallback (vibeCityUsed user ++ ", " ++ vibeCountryUsed user) rows2
                (vibeCityUsed user) (vibeCountryUsed user)
                [vibesPrompt (vibeCityUsed user) (vibeCountryUsed user)]) := rfl
  constructor
  · rw [hout]
    split
    · exact vibeFallback_genPrompts _ _ _ _ _
    · split
      · exact vibeFallback_genPrompts _ _ _ _ _
      · split <;> first | rfl | exact vibeFallback_genPrompts _ _ _ _ _
  · intro e hg
    constructor
    · rw [hout, hg]
      dsimp only
      rw [vibeFallback_deleted]
    · rw [hout, hg]
      dsimp only
      rw [vibeFallback_deleted]

/-- Witness for `c7_refresh_semantics`: a pre-existing truthy row for the
caller's city is deleted, generation is attempted and its failure yields
the default trio. -/
theorem c7_refresh_semantics_witness :
    (local_discounts_and_events ⟨1, "Dev", .arr [], 1, [], "Berlin", "Germany"⟩ "true"
        [⟨"berlin", "germany", .arr [.str "old"]⟩] (fun _ => .error "down")).genPrompts
      = [vibesPrompt "Berlin" "Germany"] ∧
    (local_discounts_and_events ⟨1, "Dev", .arr [], 1, [], "Berlin", "Germany"⟩ "true"
        [⟨"berlin", "germany", .arr [.str "old"]⟩] (fun _ => .error "down")).resp
      = .ok ("Berlin, Germany", defaultVibes) ∧
    (local_discounts_and_events ⟨1, "Dev", .arr [], 1, [], "Berlin", "Germany"⟩ "true"
        [⟨"berlin", "germany", .arr [.str "old"]⟩] (fun _ => .error "down")).vibesAfter = [] := by
  refine ⟨(c7_refresh_semantics _ _ _).1, ?_, ?_⟩
  · exact ((c7_refresh_semantics ⟨1, "Dev", .arr [], 1, [], "Berlin", "Germany"⟩
      [⟨"berlin", "germany", .arr [.str "old"]⟩] (fun _ => .error "down")).2 "down" rfl).1
  · exact ((c7_refresh_semantics ⟨1, "Dev", .arr [], 1, [], "Berlin", "Germany"⟩
      [⟨"berlin", "germany", .arr [.str "old"]⟩] (fun _ => .error "down")).2 "down" rfl).2

/- ## C5: shared-cache reuse -/

/-- C5 (counterexample): a shared-cache key populated by a prior call does
NOT guarantee zero generation calls within the TTL.  The generator
produced `[]`; the first call cached the empty list under the normalized
key; the second call within 24 h finds it, but `if not jobs_data` treats
the falsy cached payload as a miss and calls the generation service
again. -/
theorem c5_cache_counterexample :
    (scrape_jobs ⟨1, "Dev", .arr [], 1, [], "", ""⟩ "x" "y" [] [] 10 1000
        (fun _ => .ok "[]")).cacheAfter
      = [(jobsKey "x" "y", .arr [], 87400)] ∧
    (scrape_jobs ⟨1, "Dev", .arr [], 1, [], "", ""⟩ "x" "y"
        [(jobsKey "x" "y", .arr [], 87400)] [] 10 2000
        (fun _ => .ok "[]")).genPrompts
      = [jobsPrompt "x" "y"] :=
  ⟨rfl, rfl⟩

/-- C5 (amended): a TRUTHY (non-empty) cached payload under the
normalized key is served within its TTL with zero generation calls: the
response is computed from the cached value alone, identically under any
generation service, and nothing is re-cached.  This holds for the
job-search cache and for the quiz-by-sanitized-title cache (when the
internship carries no pre-built quiz); a falsy cached payload is treated
as a miss instead. -/
theorem c5_cache_amended
    (user : UserRec) (qp lp : String) (cache : CacheStore) (jobs : List ScrapedJobRow)
    (nid now : Nat) (gen gen₂ : GenService) (v : Json)
    (intern : InternshipRow) (qcache : CacheStore) (w : Json)
    (hjv : cacheGet cache (jobsKey (jobsQueryUsed user qp) (jobsLocationUsed user lp)) now
      = some v)
    (hvt : v.isTruthy = true)
    (hpre : quizPrebuiltCheck intern.interview_questions = some false)
    (hqw : cacheGet qcache (quizKey intern.title) now = some w)
    (hwt : w.isTruthy = true) :
    (scrape_jobs user qp lp cache jobs nid now gen).genPrompts = [] ∧
    scrape_jobs user qp lp cache jobs nid now gen
      = scrape_jobs user qp lp cache jobs nid now gen₂ ∧
    (scrape_jobs user qp lp cache jobs nid now gen).cacheAfter = cache ∧
    (generate_quiz intern qcache now gen).genPrompts = [] ∧
    (generate_quiz intern qcache now gen).resp = quizProject w ∧
    generate_quiz intern qcache now gen = generate_quiz intern qcache now gen₂ ∧
    (generate_quiz intern qcache now gen).cacheAfter = qcache := by
  have hjobs : ∀ g : GenService, scrape_jobs user qp lp cache jobs nid now g
      = scrape_jobs user qp lp cache jobs nid now gen := by
    intro g
    simp only [scrape_jobs, hjv, hvt, if_true]
  have hquiz : ∀ g : GenService, generate_quiz intern qcache now g
      = generate_quiz intern qcache now gen := by
    intro g
    simp only [generate_quiz, hpre, hqw, hwt, if_true]
  refine ⟨?_, (hjobs gen₂).symm, ?_, ?_, ?_, (hquiz gen₂).symm, ?_⟩
  · simp only [scrape_jobs, hjv, hvt, if_true]
    rw [if_neg (by simp)]
    cases iterItems v <;> rfl
  · simp only [scrape_jobs, hjv, hvt, if_true]
    rw [if_neg (by simp)]
    cases iterItems v <;> rfl
  · simp only [generate_quiz, hpre, hqw, hwt, if_true]
  · simp only [generate_quiz, hpre, hqw, hwt, if_true]
  · simp only [generate_quiz, hpre, hqw, hwt, if_true]

/-- Witness for `c5_cache_amended`: concrete truthy cached payloads for
both the job-search key and the quiz key, served with no generation
call under two different generation services. -/
theorem c5_cache_amended_witness :
    (scrape_jobs ⟨1, "Dev", .arr [], 1, [], "", ""⟩ "x" "y"
        [(jobsKey "x" "y", .arr [.int 1], 100)] [] 10 0 (fun _ => .error "a")).genPrompts = [] ∧
    scrape_jobs ⟨1, "Dev", .arr [], 1, [], "", ""⟩ "x" "y"
        [(jobsKey "x" "y", .arr [.int 1], 100)] [] 10 0 (fun _ => .error "a")
      = scrape_jobs ⟨1, "Dev", .arr [], 1, [], "", ""⟩ "x" "y"
        [(jobsKey "x" "y", .arr [.int 1], 100)] [] 10 0 (fun _ => .error "b") ∧
    (scrape_jobs ⟨1, "Dev", .arr [], 1, [], "", ""⟩ "x" "y"
        [(jobsKey "x" "y", .arr [.int 1], 100)] [] 10 0 (fun _ => .error "a")).cacheAfter
      = [(jobsKey "x" "y", .arr [.int 1], 100)] ∧
    (generate_quiz ⟨5, 1, "T", .int 7, .int 30, "d", "s", "", .arr [], .arr [], "img"⟩
        [(quizKey "T", .arr [.obj [("question", .str "q"), ("options", .arr [.str "a"]),
          ("correct", .int 0)]], 100)] 0 (fun _ => .error "a")).genPrompts = [] ∧
    (generate_quiz ⟨5, 1, "T", .int 7, .int 30, "d", "s", "", .arr [], .arr [], "img"⟩
        [(quizKey "T", .arr [.obj [("question", .str "q"), ("options", .arr [.str "a"]),
          ("correct", .int 0)]], 100)] 0 (fun _ => .error "a")).resp
      = quizProject (.arr [.obj [("question", .str "q"), ("options", .arr [.str "a"]),
          ("correct", .int 0)]]) ∧
    generate_quiz ⟨5, 1, "T", .int 7, .int 30, "d", "s", "", .arr [], .arr [], "img"⟩
        [(quizKey "T", .arr [.obj [("question", .str "q"), ("options", .arr [.str "a"]),
          ("correct", .int 0)]], 100)] 0 (fun _ => .error "a")
      = generate_quiz ⟨5, 1, "T", .int 7, .int 30, "d", "s", "", .arr [], .arr [], "img"⟩
        [(quizKey "T", .arr [.obj [("question", .str "q"), ("options", .arr [.str "a"]),
          ("correct", .int 0)]], 100)] 0 (fun _ => .error "b") ∧
    (generate_quiz ⟨5, 1, "T", .int 7, .int 30, "d", "s", "", .arr [], .arr [], "img"⟩
        [(quizKey "T", .arr [.obj [("question", .str "q"), ("options", .arr [.str "a"]),
          ("correct", .int 0)]], 100)] 0 (fun _ => .error "a")).cacheAfter
      = [(quizKey "T", .arr [.obj [("question", .str "q"), ("options", .arr [.str "a"]),
          ("correct", .int 0)]], 100)] :=
  c5_cache_amended ⟨1, "Dev", .arr [], 1, [], "", ""⟩ "x" "y"
    [(jobsKey "x" "y", .arr [.int 1], 100)] [] 10 0
    (fun _ => .error "a") (fun _ => .error "b") (.arr [.int 1])
    ⟨5, 1, "T", .int 7, .int 30, "d", "s", "", .arr [], .arr [], "img"⟩
    [(quizKey "T", .arr [.obj [("question", .str "q"), ("options", .arr [.str "a"]),
      ("correct", .int 0)]], 100)]
    (.arr [.obj [("question", .str "q"), ("options", .arr [.str "a"]), ("correct", .int 0)]])
    rfl rfl rfl rfl rfl

/- ## C6: quiz scoring -/

/-- C6, counterexample: the claim reads the score as
`round(100 * correct_count / total)`, i.e. Python `round` of the exact
rational, which at 23 correct of 40 gives `round(57.5) = 58`
(half-to-even); the code computes `round((correct_count / total) * 100)`
in floating point (views.py:519) and the two binary64 roundings drag the
product down to `57.49999999999999`, so the endpoint returns 57.  (The
drift goes the other way too: at 109 of 200 the float product is
`54.500000000000007` and the endpoint returns 55 where the exact reading
gives 54.) -/
theorem c6_score_rounding_counterexample :
    ∃ payload,
      (submit_quiz 1
          ⟨5, 1, "T", .int 7, .int 30, "d", "s", "", .arr [],
            .arr ((List.range 40).map fun i =>
              .obj [("question", .str "q"), ("options", .arr []),
                    ("correct", .int (if i < 23 then 0 else 3))]), "img"⟩
          (List.replicate 40 (.int 0)) []).resp = .ok payload ∧
      payload.correct = 23 ∧ payload.total = 40 ∧
      payload.score = 57 ∧ specRound100 23 40 = 58 :=
  ⟨_, rfl, rfl, rfl, rfl, rfl⟩

/-- C6, amended: for every submission against a non-empty stored
question list, the returned score is the float computation
`round((correct / total) * 100)` — each float operation rounding to the
nearest binary64 and `round` half-to-even on the resulting double — with
`total` the stored size, and `passed` holds exactly when the score
reaches 60. -/
theorem c6_quiz_scoring_amended (uid : Nat) (intern : InternshipRow) (answers : List Json)
    (enrolls : List EnrollmentRow) (l : List Json) (payload : SubmitOk)
    (hiq : intern.interview_questions = .arr l)
    (h : (submit_quiz uid intern answers enrolls).resp = .ok payload) :
    payload.total = l.length ∧
    payload.score = pyScore100 payload.correct payload.total ∧
    payload.passed = decide (60 ≤ payload.score) ∧
    0 < payload.total := by
  simp only [submit_quiz, hiq] at h
  cases l with
  | nil => simp [Json.isTruthy] at h
  | cons q qs =>
    simp only [Json.isTruthy, List.isEmpty_cons, Bool.not_false, if_true, not_true,
      Bool.not_eq_true, if_false, iterItems] at h
    cases hm : mapOption (fun p => gradeOne answers p.1 p.2) (q :: qs).enum with
    | none => rw [hm] at h; simp at h
    | some results =>
      rw [hm] at h
      simp only [HttpResp.ok.injEq] at h
      subst h
      refine ⟨rfl, ?_, rfl, Nat.succ_pos _⟩
      simp

/-- Witness for `c6_quiz_scoring_amended`: 6 matching answers out of 10
stored questions yield `score = 60` and `passed = true` (a float-exact
instance, so the exact-rational and float readings agree here). -/
theorem c6_quiz_scoring_amended_witness :
    ∃ payload,
      (submit_quiz 1
          ⟨5, 1, "T", .int 7, .int 30, "d", "s", "", .arr [],
            .arr ((List.range 10).map fun i =>
              .obj [("question", .str "q"), ("options", .arr []),
                    ("correct", .int (if i < 6 then 0 else 3))]), "img"⟩
          (List.replicate 10 (.int 0)) []).resp = .ok payload ∧
      payload.score = 60 ∧ payload.correct = 6 ∧ payload.total = 10 ∧
      payload.passed = true ∧
      payload.score = pyScore100 payload.correct payload.total ∧
      payload.passed = decide (60 ≤ payload.score) :=
  ⟨_, rfl, rfl, rfl, rfl, rfl,
    (c6_quiz_scoring_amended 1
      ⟨5, 1, "T", .int 7, .int 30, "d", "s", "", .arr [],
        .arr ((List.range 10).map fun i =>
          .obj [("question", .str "q"), ("options", .arr []),
                ("correct", .int (if i < 6 then 0 else 3))]), "img"⟩
      (List.replicate 10 (.int 0)) []
      ((List.range 10).map fun i =>
        .obj [("question", .str "q"), ("options", .arr []),
              ("correct", .int (if i < 6 then 0 else 3))]) _ rfl rfl).2.1,
    (c6_quiz_scoring_amended 1
      ⟨5, 1, "T", .int 7, .int 30, "d", "s", "", .arr [],
        .arr ((List.range 10).map fun i =>
          .obj [("question", .str "q"), ("options", .arr []),
                ("correct", .int (if i < 6 then 0 else 3))]), "img"⟩
      (List.replicate 10 (.int 0)) []
      ((List.range 10).map fun i =>
        .obj [("question", .str "q"), ("options", .arr []),
              ("correct", .int (if i < 6 then 0 else 3))]) _ rfl rfl).2.2.1⟩

/- ## C9: submit_quiz reveals the answer key; short answer lists -/

theorem mapOption_get? {α β : Type} {f : α → Option β} :
    ∀ {xs : List α} {ys : List β}, mapOption f xs = some ys →
      ∀ (i : Nat) (x : α), xs[i]? = some x → ∃ y, ys[i]? = some y ∧ f x = some y := by
  intro xs
  induction xs with
  | nil => intro ys h i x hx; simp at hx
  | cons a rest ih =>
    intro ys h i x hx
    simp only [mapOption] at h
    cases hfa : f a with
    | none => rw [hfa] at h; simp at h
    | some y0 =>
      rw [hfa] at h
      cases hrest : mapOption f rest with
      | none => rw [hrest] at h; simp at h
      | some ys' =>
        rw [hrest] at h
        simp at h
        subst h
        cases i with
        | zero =>
          simp at hx
          subst hx
          exact ⟨y0, by simp, hfa⟩
        | succ n =>
          simp only [List.getElem?_cons_succ] at hx ⊢
          exact ih hrest n x hx

theorem jsonBeq_int_iff (a : Int) (j : Json) : jsonBeq (.int a) j = true ↔ j = .int a := by
  cases j with
  | int b =>
    rw [show jsonBeq (.int a) (.int b) = (a == b) from rfl, beq_iff_eq]
    exact ⟨fun h => by rw [h], fun h => by injection h with h2; exact h2.symm⟩
  | null =>
    rw [show jsonBeq (.int a) .null = false from rfl]
    exact iff_of_false Bool.false_ne_true (fun h => Json.noConfusion h)
  | bool b =>
    rw [show jsonBeq (.int a) (.bool b) = false from rfl]
    exact iff_of_false Bool.false_ne_true (fun h => Json.noConfusion h)
  | str s2 =>
    rw [show jsonBeq (.int a) (.str s2) = false from rfl]
    exact iff_of_false Bool.false_ne_true (fun h => Json.noConfusion h)
  | arr l =>
    rw [show jsonBeq (.int a) (.arr l) = false from rfl]
    exact iff_of_false Bool.false_ne_true (fun h => Json.noConfusion h)
  | obj kvs =>
    rw [show jsonBeq (.int a) (.obj kvs) = false from rfl]
    exact iff_of_false Bool.false_ne_true (fun h => Json.noConfusion h)

/-- The grading loop outcome of a successful submission: the results list
is the `mapOption` of `gradeOne` over the enumerated stored question
list. -/
theorem submit_quiz_results (uid : Nat) (intern : InternshipRow) (answers : List Json)
    (enrolls : List EnrollmentRow) (l : List Json) (payload : SubmitOk)
    (hiq : intern.interview_questions = .arr l)
    (h : (submit_quiz uid intern answers enrolls).resp = .ok payload) :
    mapOption (fun p => gradeOne answers p.1 p.2) l.enum = some payload.results := by
  simp only [submit_quiz, hiq] at h
  cases l with
  | nil => simp [Json.isTruthy] at h
  | cons q qs =>
    simp only [Json.isTruthy, List.isEmpty_cons, Bool.not_false, if_true, not_true,
      Bool.not_eq_true, if_false, iterItems] at h
    cases hm : mapOption (fun p => gradeOne answers p.1 p.2) (q :: qs).enum with
    | none => rw [hm] at h; simp at h
    | some results =>
      rw [hm] at h
      simp only [HttpResp.ok.injEq] at h
      subst h
      rfl

/-- C9 (counterexample): "an answers list shorter than the question set
counts each missing answer as incorrect" is false: a stored question
whose `correct` index is `-1` matches the `-1` placeholder used for
missing answers, so an empty submission is graded fully correct — 100,
passed. -/
theorem c9_missing_answer_counterexample :
    (submit_quiz 1 ⟨5, 1, "T", .int 7, .int 30, "", "", "", .arr [],
        .arr [.obj [("correct", .int (-1))]], ""⟩ [] []).resp
      = .ok ⟨100, 1, 1, true, [⟨.str "", .int (-1), .int (-1), true⟩],
          "Quiz Result: 1/1 correct (100%). PASSED ✅"⟩ := rfl

/-- C9 (amended): on every successful submission the results list has one
entry per stored question and reveals the stored `correct` index (default
`0`) under `correct_answer`; an answer list shorter than the question set
makes each missing position count as the answer `-1`, which is graded
incorrect EXCEPT when the stored correct index is itself `-1`. -/
theorem c9_answer_key_amended (uid : Nat) (intern : InternshipRow) (answers : List Json)
    (enrolls : List EnrollmentRow) (l : List Json) (payload : SubmitOk)
    (hiq : intern.interview_questions = .arr l)
    (h : (submit_quiz uid intern answers enrolls).resp = .ok payload) :
    payload.results.length = l.length ∧
    (∀ i, i < l.length →
      ∃ kvs r, l[i]? = some (.obj kvs) ∧ payload.results[i]? = some r ∧
        r.correctAnswer = jsonGetD kvs "correct" (.int 0) ∧
        r.yourAnswer = answers.getD i (.int (-1)) ∧
        r.isCorrect = jsonBeq (answers.getD i (.int (-1))) (jsonGetD kvs "correct" (.int 0))) ∧
    (∀ i r, answers.length ≤ i → payload.results[i]? = some r →
      r.yourAnswer = .int (-1) ∧ (r.isCorrect = true ↔ r.correctAnswer = .int (-1))) := by
  have hres := submit_quiz_results uid intern answers enrolls l payload hiq h
  have hlen : payload.results.length = l.length := by
    rw [mapOption_length hres, List.enum_length]
  have hmain : ∀ i, i < l.length →
      ∃ kvs r, l[i]? = some (.obj kvs) ∧ payload.results[i]? = some r ∧
        r.correctAnswer = jsonGetD kvs "correct" (.int 0) ∧
        r.yourAnswer = answers.getD i (.int (-1)) ∧
        r.isCorrect = jsonBeq (answers.getD i (.int (-1))) (jsonGetD kvs "correct" (.int 0)) := by
    intro i hi
    have hx : l[i]? = some (l.get ⟨i, hi⟩) := List.getElem?_eq_getElem hi
    have hex : l.enum[i]? = some (i, l.get ⟨i, hi⟩) := by
      rw [List.getElem?_enum, hx]
      rfl
    obtain ⟨y, hy, hfy⟩ := mapOption_get? hres i (i, l.get ⟨i, hi⟩) hex
    cases hq : l.get ⟨i, hi⟩ with
    | obj kvs =>
      rw [hq] at hfy
      simp only [gradeOne] at hfy
      refine ⟨kvs, y, by rw [hx, hq], hy, ?_, ?_, ?_⟩ <;>
        (injection hfy with hfy; rw [← hfy])
    | null => rw [hq] at hfy; simp [gradeOne] at hfy
    | bool b => rw [hq] at hfy; simp [gradeOne] at hfy
    | int n => rw [hq] at hfy; simp [gradeOne] at hfy
    | str s => rw [hq] at hfy; simp [gradeOne] at hfy
    | arr a => rw [hq] at hfy; simp [gradeOne] at hfy
  refine ⟨hlen, hmain, ?_⟩
  intro i r hai hri
  have hil : i < l.length := by
    rw [← hlen]
    exact (List.getElem?_eq_some.mp hri).1
  obtain ⟨kvs, r', hobj, hr', hc, hy, hic⟩ := hmain i hil
  rw [hri] at hr'
  injection hr' with hrr
  subst hrr
  have hgd : answers.getD i (Json.int (-1)) = Json.int (-1) :=
    List.getD_eq_default _ _ hai
  rw [hgd] at hy hic
  refine ⟨hy, ?_⟩
  rw [hic, hc]
  exact jsonBeq_int_iff (-1) (jsonGetD kvs "correct" (.int 0))

/-- Witness for `c9_answer_key_amended`: a one-question set with
`correct = 2` and an empty answers list — the missing answer is `-1` and
graded incorrect since `2 ≠ -1`, and the answer key is in the results. -/
theorem c9_answer_key_amended_witness :
    ∃ payload,
      (submit_quiz 1 ⟨5, 1, "T", .int 7, .int 30, "", "", "", .arr [],
          .arr [.obj [("correct", .int 2)]], ""⟩ [] []).resp = .ok payload ∧
      payload.results.length = 1 ∧
      (∀ i r, List.length ([] : List Json) ≤ i → payload.results[i]? = some r →
        r.yourAnswer = .int (-1) ∧ (r.isCorrect = true ↔ r.correctAnswer = .int (-1))) :=
  ⟨_, rfl,
    (c9_answer_key_amended 1 ⟨5, 1, "T", .int 7, .int 30, "", "", "", .arr [],
      .arr [.obj [("correct", .int 2)]], ""⟩ [] [] [.obj [("correct", .int 2)]] _ rfl rfl).1,
    (c9_answer_key_amended 1 ⟨5, 1, "T", .int 7, .int 30, "", "", "", .arr [],
      .arr [.obj [("correct", .int 2)]], ""⟩ [] [] [.obj [("correct", .int 2)]] _ rfl rfl).2.2⟩

/- ## C4: quiz retrieval strips the answer key -/

theorem scrubCorrect_inv {x y : Json} (h : scrubCorrect x = scrubCorrect y) :
    (∃ k1 k2, x = .obj k1 ∧ y = .obj k2 ∧
      k1.filter (fun p => ¬ p.1 = "correct") = k2.filter (fun p => ¬ p.1 = "correct")) ∨
    x = y := by
  cases x <;> cases y <;>
    first
      | exact Or.inl ⟨_, _, rfl, rfl, by simpa [scrubCorrect] using h⟩
      | exact Or.inr (by simpa [scrubCorrect] using h)
      | simp [scrubCorrect] at h

theorem scrubCorrectSet_inv {a b : Json} (h : scrubCorrectSet a = scrubCorrectSet b) :
    (∃ la lb, a = .arr la ∧ b = .arr lb ∧ la.map scrubCorrect = lb.map scrubCorrect) ∨
    a = b := by
  cases a <;> cases b <;>
    first
      | exact Or.inl ⟨_, _, rfl, rfl, by simpa [scrubCorrectSet] using h⟩
      | exact Or.inr (by simpa [scrubCorrectSet] using h)
      | simp [scrubCorrectSet] at h

theorem safeQuestion_congr {x y : Json} (h : scrubCorrect x = scrubCorrect y) :
    safeQuestion x = safeQuestion y := by
  rcases scrubCorrect_inv h with ⟨k1, k2, rfl, rfl, hf⟩ | rfl
  · simp only [safeQuestion]
    rw [← jsonGetD_scrub k1 "question" _ (by decide),
      ← jsonGetD_scrub k1 "options" _ (by decide), hf,
      jsonGetD_scrub k2 "question" _ (by decide),
      jsonGetD_scrub k2 "options" _ (by decide)]
  · rfl

theorem mapOption_safeQuestion_congr : ∀ {la lb : List Json},
    la.map scrubCorrect = lb.map scrubCorrect →
    mapOption safeQuestion la = mapOption safeQuestion lb := by
  intro la
  induction la with
  | nil =>
    intro lb h
    cases lb with
    | nil => rfl
    | cons y ys => simp at h
  | cons x xs ih =>
    intro lb h
    cases lb with
    | nil => simp at h
    | cons y ys =>
      simp only [List.map_cons, List.cons.injEq] at h
      simp only [mapOption]
      rw [safeQuestion_congr h.1, ih h.2]

theorem safeQuestions_scrub {a b : Json} (h : scrubCorrectSet a = scrubCorrectSet b) :
    safeQuestions a = safeQuestions b := by
  rcases scrubCorrectSet_inv h with ⟨la, lb, rfl, rfl, hm⟩ | rfl
  · exact mapOption_safeQuestion_congr hm
  · rfl

theorem quizProject_congr {a b : Json} (h : scrubCorrectSet a = scrubCorrectSet b) :
    quizProject a = quizProject b := by
  unfold quizProject
  rw [safeQuestions_scrub h]

theorem quizPrebuiltCheck_scrub {a b : Json} (h : scrubCorrectSet a = scrubCorrectSet b) :
    quizPrebuiltCheck a = quizPrebuiltCheck b := by
  rcases scrubCorrectSet_inv h with ⟨la, lb, rfl, rfl, hm⟩ | rfl
  · have hlen : la.length = lb.length := by
      have h2 := congrArg List.length hm
      simpa using h2
    have hie : la.isEmpty = lb.isEmpty := by
      cases la <;> cases lb <;> first | rfl | simp at hlen
    have hhead : (match la.head? with
        | some (.obj kvs) => jsonHasKey kvs "options"
        | _ => false)
      = (match lb.head? with
        | some (.obj kvs) => jsonHasKey kvs "options"
        | _ => false) := by
      have hh := congrArg List.head? hm
      rw [List.head?_map, List.head?_map] at hh
      cases hla : la.head? with
      | none =>
        cases hlb : lb.head? with
        | none => rfl
        | some y => rw [hla, hlb] at hh; simp at hh
      | some x =>
        cases hlb : lb.head? with
        | none => rw [hla, hlb] at hh; simp at hh
        | some y =>
          rw [hla, hlb] at hh
          simp only [Option.map_some', Option.some.injEq] at hh
          rcases scrubCorrect_inv hh with ⟨k1, k2, rfl, rfl, hf⟩ | rfl
          · show jsonHasKey k1 "options" = jsonHasKey k2 "options"
            rw [← jsonHasKey_scrub k1 "options" (by decide), hf,
              jsonHasKey_scrub k2 "options" (by decide)]
          · rfl
    simp only [quizPrebuiltCheck]
    rw [hlen, hie, hhead]
  · rfl

theorem quizProject_shape {X : Json} {payload : QuizOk}
    (h : quizProject X = .ok payload) :
    ∀ q ∈ payload.questions, ∃ qt opts, q = .obj [("question", qt), ("options", opts)] := by
  unfold quizProject at h
  cases hs : safeQuestions X with
  | none => rw [hs] at h; simp at h
  | some sq =>
    rw [hs] at h
    simp only [HttpResp.ok.injEq] at h
    subst h
    intro q hq
    unfold safeQuestions at hs
    cases hi : iterItems X with
    | none => rw [hi] at hs; simp at hs
    | some items =>
      rw [hi] at hs
      obtain ⟨x, _, hfx⟩ := mapOption_mem hs q hq
      cases x with
      | obj kvs =>
        simp only [safeQuestion, Option.some.injEq] at hfx
        exact ⟨_, _, hfx.symm⟩
      | null => simp [safeQuestion] at hfx
      | bool b2 => simp [safeQuestion] at hfx
      | int n => simp [safeQuestion] at hfx
      | str s2 => simp [safeQuestion] at hfx
      | arr l2 => simp [safeQuestion] at hfx

theorem generate_quiz_resp_cases (intern : InternshipRow) (cache : CacheStore) (now : Nat)
    (gen : GenService) :
    (∃ X, (generate_quiz intern cache now gen).resp = quizProject X) ∨
    (∃ n m, (generate_quiz intern cache now gen).resp = .err n m) ∨
    (generate_quiz intern cache now gen).resp = .crash := by
  unfold generate_quiz
  dsimp only
  repeat' first
    | exact Or.inr (Or.inr rfl)
    | exact Or.inl ⟨_, rfl⟩
    | exact Or.inr (Or.inl ⟨_, _, rfl⟩)
    | split

/-- C4: quiz retrieval strips the answer key.  Every question object in a
successful retrieval payload carries exactly the keys `question` and
`options` — no `correct` key — and two stored question sets differing
only in their `correct` values produce identical retrieval responses
(the hyperproperty form of "the payload carries no information about the
answers"). -/
theorem c4_quiz_answer_privacy (intern : InternshipRow) (iq2 : Json) (cache : CacheStore)
    (now : Nat) (gen : GenService)
    (hscrub : scrubCorrectSet intern.interview_questions = scrubCorrectSet iq2) :
    (∀ payload, (generate_quiz intern cache now gen).resp = .ok payload →
      ∀ q ∈ payload.questions, ∃ qt opts, q = .obj [("question", qt), ("options", opts)]) ∧
    (generate_quiz intern cache now gen).resp
      = (generate_quiz { intern with interview_questions := iq2 } cache now gen).resp := by
  constructor
  · intro payload hok
    rcases generate_quiz_resp_cases intern cache now gen with ⟨X, hX⟩ | ⟨n, m, hX⟩ | hX
    · rw [hX] at hok
      exact quizProject_shape hok
    · rw [hX] at hok
      exact absurd hok (by simp)
    · rw [hX] at hok
      exact absurd hok (by simp)
  · have hc : quizPrebuiltCheck iq2 = quizPrebuiltCheck intern.interview_questions :=
      (quizPrebuiltCheck_scrub hscrub).symm
    unfold generate_quiz
    dsimp only
    rw [hc]
    cases hcc : quizPrebuiltCheck intern.interview_questions with
    | none => rfl
    | some b =>
      cases b with
      | true => exact quizProject_congr hscrub
      | false =>
        cases hv : cacheGet cache (quizKey intern.title) now with
        | some v =>
          dsimp only
          by_cases hvt : v.isTruthy
          · rw [if_pos hvt]
          · rw [if_neg hvt]
            cases hg : gen (quizPrompt intern.title intern.skillsLearned) with
            | error e => rfl
            | ok t =>
              dsimp only
              cases hp : parseBracketFirst t with
              | none => rfl
              | some qs => rfl
        | none =>
          dsimp only
          cases hg : gen (quizPrompt intern.title intern.skillsLearned) with
          | error e => rfl
          | ok t =>
            dsimp only
            cases hp : parseBracketFirst t with
            | none => rfl
            | some qs => rfl

/-- Witness for `c4_quiz_answer_privacy`: two stored 10-question sets
identical except every `correct` index (0 vs 3) yield the same retrieval
response, and its questions carry only `question` and `options`. -/
theorem c4_quiz_answer_privacy_witness :
    (∀ payload,
      (generate_quiz ⟨5, 1, "T", .int 7, .int 30, "d", "s", "", .arr [],
          .arr (List.replicate 10 (.obj [("question", .str "q"), ("options", .arr [.str "a"]),
            ("correct", .int 0)])), "img"⟩ [] 0 (fun _ => .error "down")).resp = .ok payload →
      ∀ q ∈ payload.questions, ∃ qt opts, q = .obj [("question", qt), ("options", opts)]) ∧
    (generate_quiz ⟨5, 1, "T", .int 7, .int 30, "d", "s", "", .arr [],
        .arr (List.replicate 10 (.obj [("question", .str "q"), ("options", .arr [.str "a"]),
          ("correct", .int 0)])), "img"⟩ [] 0 (fun _ => .error "down")).resp
      = (generate_quiz { (⟨5, 1, "T", .int 7, .int 30, "d", "s", "", .arr [],
          .arr (List.replicate 10 (.obj [("question", .str "q"), ("options", .arr [.str "a"]),
            ("correct", .int 0)])), "img"⟩ : InternshipRow) with
          interview_questions := .arr (List.replicate 10 (.obj [("question", .str "q"),
            ("options", .arr [.str "a"]), ("correct", .int 3)])) } [] 0
          (fun _ => .error "down")).resp :=
  c4_quiz_answer_privacy _ _ [] 0 _ rfl

/- ## C2: failure handling split across endpoints -/

theorem vibeFallback_ok (L : String) (R : List LocalVibeRow) (c k : String) (P : List String) :
    ∃ off, (vibeFallback L R c k P).resp = .ok (L, off) ∧
      (off = defaultVibes ∨ ∃ r ∈ R, off = r.offers) := by
  unfold vibeFallback
  cases hf : vibeFind R c k with
  | none => exact ⟨defaultVibes, rfl, Or.inl rfl⟩
  | some r =>
    dsimp only
    by_cases ht : r.offers.isTruthy
    · rw [if_pos ht]
      exact ⟨r.offers, rfl, Or.inr ⟨r, List.mem_of_find?_eq_some hf, rfl⟩⟩
    · rw [if_neg ht]
      exact ⟨defaultVibes, rfl, Or.inl rfl⟩

theorem vibeFallback_ok_sub (L : String) (rows R : List LocalVibeRow) (c k : String)
    (P : List String) (hsub : ∀ r, r ∈ R → r ∈ rows) :
    ∃ off, (vibeFallback L R c k P).resp = .ok (L, off) ∧
      (off = defaultVibes ∨ ∃ r ∈ rows, off = r.offers) := by
  obtain ⟨off, h1, h2⟩ := vibeFallback_ok L R c k P
  refine ⟨off, h1, ?_⟩
  rcases h2 with h | ⟨r, hr, ho⟩
  · exact Or.inl h
  · exact Or.inr ⟨r, hsub r hr, ho⟩

/-- Whenever generation produces no parseable events — it raises, or its
text fails the parse — the local-recommendations endpoint still answers
with HTTP success: a stale row's offers or the default trio. -/
theorem local_failure_ok (user : UserRec) (rp : String) (rows : List LocalVibeRow)
    (g : GenService)
    (hfail : ∀ raw, g (vibesPrompt (vibeCityUsed user) (vibeCountryUsed user)) = .ok raw →
      parseFencesFirst raw = none) :
    ∃ loc off, (local_discounts_and_events user rp rows g).resp = .ok (loc, off) ∧
      (off = defaultVibes ∨ ∃ r ∈ rows, off = r.offers) := by
  unfold local_discounts_and_events
  dsimp only
  cases hrb : pyLower rp == "true" with
  | true =>
    cases hgr : g (vibesPrompt (vibeCityUsed user) (vibeCountryUsed user)) with
    | error e2 =>
      obtain ⟨off, h1, h2⟩ := vibeFallback_ok_sub
        (vibeCityUsed user ++ ", " ++ vibeCountryUsed user) rows
        (vibeDelete rows (vibeCityUsed user) (vibeCountryUsed user))
        (vibeCityUsed user) (vibeCountryUsed user)
        [vibesPrompt (vibeCityUsed user) (vibeCountryUsed user)]
        (fun r hr => List.mem_of_mem_filter hr)
      exact ⟨_, off, h1, h2⟩
    | ok raw =>
      simp only [hfail raw hgr]
      obtain ⟨off, h1, h2⟩ := vibeFallback_ok_sub
        (vibeCityUsed user ++ ", " ++ vibeCountryUsed user) rows
        (vibeDelete rows (vibeCityUsed user) (vibeCountryUsed user))
        (vibeCityUsed user) (vibeCountryUsed user)
        [vibesPrompt (vibeCityUsed user) (vibeCountryUsed user)]
        (fun r hr => List.mem_of_mem_filter hr)
      exact ⟨_, off, h1, h2⟩
  | false =>
    cases hf : vibeFind rows (vibeCityUsed user) (vibeCountryUsed user) with
    | some r =>
      dsimp only
      by_cases ht : r.offers.isTruthy
      · rw [if_pos ht]
        exact ⟨_, r.offers, rfl, Or.inr ⟨r, List.mem_of_find?_eq_some hf, rfl⟩⟩
      · rw [if_neg ht]
        cases hgr : g (vibesPrompt (vibeCityUsed user) (vibeCountryUsed user)) with
        | error e2 =>
          obtain ⟨off, h1, h2⟩ := vibeFallback_ok
            (vibeCityUsed user ++ ", " ++ vibeCountryUsed user) rows
            (vibeCityUsed user) (vibeCountryUsed user)
            [vibesPrompt (vibeCityUsed user) (vibeCountryUsed user)]
          exact ⟨_, off, h1, h2⟩
        | ok raw =>
          simp only [hfail raw hgr]
          obtain ⟨off, h1, h2⟩ := vibeFallback_ok
            (vibeCityUsed user ++ ", " ++ vibeCountryUsed user) rows
            (vibeCityUsed user) (vibeCountryUsed user)
            [vibesPrompt (vibeCityUsed user) (vibeCountryUsed user)]
          exact ⟨_, off, h1, h2⟩
    | none =>
      cases hgr : g (vibesPrompt (vibeCityUsed user) (vibeCountryUsed user)) with
      | error e2 =>
        obtain ⟨off, h1, h2⟩ := vibeFallback_ok
          (vibeCityUsed user ++ ", " ++ vibeCountryUsed user) rows
          (vibeCityUsed user) (vibeCountryUsed user)
          [vibesPrompt (vibeCityUsed user) (vibeCountryUsed user)]
        exact ⟨_, off, h1, h2⟩
      | ok raw =>
        simp only [hfail raw hgr]
        obtain ⟨off, h1, h2⟩ := vibeFallback_ok
          (vibeCityUsed user ++ ", " ++ vibeCountryUsed user) rows
          (vibeCityUsed user) (vibeCountryUsed user)
          [vibesPrompt (vibeCityUsed user) (vibeCountryUsed user)]
        exact ⟨_, off, h1, h2⟩

/-- C2: on generation or parse failure, the job-search endpoint (cold
cache) and the local-recommendations endpoint still answer with HTTP
success — an empty job list, respectively a stale row's offers or the
hand-authored default trio; the career-plan endpoint (once it reaches
generation) and the grading endpoint surface a 500 error instead. -/
theorem c2_failure_split
    (user : UserRec) (qp lp : String) (jobs : List ScrapedJobRow) (nid now : Nat)
    (rows : List LocalVibeRow) (rp : String)
    (al : Option String) (extra : String) (plans : List CareerPlanRow) (pnid pnow : Nat)
    (uid : Nat) (intern : InternshipRow) (rl tt df ur : Json)
    (enrolls : List EnrollmentRow)
    (gen genT : GenService) (e t : String)
    (hg : ∀ p, gen p = .error e) (hgT : ∀ p, genT p = .ok t) :
    ((scrape_jobs user qp lp [] jobs nid now gen).resp
      = .ok ⟨0, jobsQueryUsed user qp, jobsLocationUsed user lp, []⟩) ∧
    (parseFencesFirst t = none →
      (scrape_jobs user qp lp [] jobs nid now genT).resp
        = .ok ⟨0, jobsQueryUsed user qp, jobsLocationUsed user lp, []⟩) ∧
    (∃ loc off, (local_discounts_and_events user rp rows gen).resp = .ok (loc, off) ∧
      (off = defaultVibes ∨ ∃ r ∈ rows, off = r.offers)) ∧
    (parseFencesFirst t = none →
      ∃ loc off, (local_discounts_and_events user rp rows genT).resp = .ok (loc, off) ∧
        (off = defaultVibes ∨ ∃ r ∈ rows, off = r.offers)) ∧
    (¬ pyStrip extra = "" →
      (generate_career_plan al user extra plans pnid pnow gen).resp = .err 500 e) ∧
    (¬ pyStrip extra = "" → jsonLoads (stripFences (pyStrip t)) = none →
      (generate_career_plan al user extra plans pnid pnow genT).resp
        = .err 500 "Expecting value") ∧
    ((grade_internship uid intern rl tt df ur enrolls gen).resp
      = .err 500 ("Grading failed: " ++ e)) := by
  refine ⟨?_, ?_, ?_, ?_, ?_, ?_, ?_⟩
  · simp [scrape_jobs, cacheGet, fetchJobsData, hg, Json.isTruthy]
  · intro hpt
    simp [scrape_jobs, cacheGet, fetchJobsData, hgT, hpt, Json.isTruthy]
  · exact local_failure_ok user rp rows gen
      (fun raw hraw => absurd (hraw.symm.trans (hg _)) (by simp))
  · intro hpt
    exact local_failure_ok user rp rows genT
      (fun raw hraw => by
        have h3 : raw = t := by
          have h2 := (hgT (vibesPrompt (vibeCityUsed user) (vibeCountryUsed user))).symm.trans hraw
          injection h2 with h4
          exact h4.symm
        rw [h3, hpt])
  · intro hx
    simp only [generate_career_plan]
    rw [if_neg hx]
    simp only [hg]
  · intro hx hpt
    simp only [generate_career_plan]
    rw [if_neg hx]
    simp only [hgT, hpt]
  · simp only [grade_internship, hg]

/-- Witness for `c2_failure_split`: a generator that raises and a
generator that returns unparseable text, against empty caches/tables. -/
theorem c2_failure_split_witness :
    ((scrape_jobs ⟨1, "Dev", .arr [], 1, [], "", ""⟩ "" "" [] [] 10 0
        (fun _ => .error "boom")).resp
      = .ok ⟨0, jobsQueryUsed ⟨1, "Dev", .arr [], 1, [], "", ""⟩ "",
          jobsLocationUsed ⟨1, "Dev", .arr [], 1, [], "", ""⟩ "", []⟩) ∧
    ((scrape_jobs ⟨1, "Dev", .arr [], 1, [], "", ""⟩ "" "" [] [] 10 0
        (fun _ => .ok "no json here")).resp
      = .ok ⟨0, jobsQueryUsed ⟨1, "Dev", .arr [], 1, [], "", ""⟩ "",
          jobsLocationUsed ⟨1, "Dev", .arr [], 1, [], "", ""⟩ "", []⟩) ∧
    (∃ loc off,
      (local_discounts_and_events ⟨1, "Dev", .arr [], 1, [], "", ""⟩ "false" []
        (fun _ => .error "boom")).resp = .ok (loc, off) ∧
      (off = defaultVibes ∨ ∃ r ∈ ([] : List LocalVibeRow), off = r.offers)) ∧
    (∃ loc off,
      (local_discounts_and_events ⟨1, "Dev", .arr [], 1, [], "", ""⟩ "false" []
        (fun _ => .ok "no json here")).resp = .ok (loc, off) ∧
      (off = defaultVibes ∨ ∃ r ∈ ([] : List LocalVibeRow), off = r.offers)) ∧
    ((generate_career_plan none ⟨1, "Dev", .arr [], 1, [], "", ""⟩ "go" [] 0 0
        (fun _ => .error "boom")).resp = .err 500 "boom") ∧
    ((generate_career_plan none ⟨1, "Dev", .arr [], 1, [], "", ""⟩ "go" [] 0 0
        (fun _ => .ok "no json here")).resp = .err 500 "Expecting value") ∧
    ((grade_internship 1 ⟨5, 1, "T", .int 7, .int 30, "", "", "", .arr [], .arr [], ""⟩
        .null .null .null .null [] (fun _ => .error "boom")).resp
      = .err 500 ("Grading failed: " ++ "boom")) := by
  have C := c2_failure_split ⟨1, "Dev", .arr [], 1, [], "", ""⟩ "" "" [] 10 0 [] "false"
    none "go" [] 0 0 1 ⟨5, 1, "T", .int 7, .int 30, "", "", "", .arr [], .arr [], ""⟩
    .null .null .null .null []
    (fun _ => .error "boom") (fun _ => .ok "no json here") "boom" "no json here"
    (fun _ => rfl) (fun _ => rfl)
  exact ⟨C.1, C.2.1 rfl, C.2.2.1, C.2.2.2.1 rfl, C.2.2.2.2.1 (by decide),
    C.2.2.2.2.2.1 (by decide) rfl, C.2.2.2.2.2.2⟩

/- ## C10: unconditional deletion of the caller's job rows -/

theorem saveJobs_id_ge (uid : Nat) (q l : String) :
    ∀ (items : List Json) (nid : Nat) (r : ScrapedJobRow),
      r ∈ (saveJobs uid q l items nid).1 → nid ≤ r.id := by
  intro items
  induction items with
  | nil => intro nid r hr; simp [saveJobs] at hr
  | cons item rest ih =>
    intro nid r hr
    unfold saveJobs at hr
    cases hm : mkJobRow uid q l nid item with
    | none =>
      rw [hm] at hr
      exact ih nid r hr
    | some row =>
      rw [hm] at hr
      dsimp only at hr
      rcases List.mem_cons.mp hr with h1 | h2
      · have hid : row.id = nid := by
          cases item with
          | obj kvs =>
            simp only [mkJobRow, Option.some.injEq] at hm
            rw [← hm]
          | null => simp [mkJobRow] at hm
          | bool b => simp [mkJobRow] at hm
          | int n => simp [mkJobRow] at hm
          | str s2 => simp [mkJobRow] at hm
          | arr a => simp [mkJobRow] at hm
        subst h1
        omega
      · have := ih (nid + 1) r h2
        omega

theorem scrape_jobs_after (user : UserRec) (qp lp : String) (cache : CacheStore)
    (jobs : List ScrapedJobRow) (nid now : Nat) (gen : GenService) :
    ∃ rows, (scrape_jobs user qp lp cache jobs nid now gen).jobsAfter
        = jobs.filter (fun r => ¬ r.userId = user.id) ++ rows ∧
      ∀ r ∈ rows, nid ≤ r.id := by
  unfold scrape_jobs
  dsimp only
  split
  · exact ⟨[], by simp, by simp⟩
  · split
    · exact ⟨[], by simp, by simp⟩
    · refine ⟨_, rfl, ?_⟩
      intro r hr
      exact saveJobs_id_ge _ _ _ _ _ r hr

/-- C10: every job-search call deletes the caller's stored `ScrapedJob`
rows unconditionally — whatever the generation service does — and after
a failed generation on a cold cache the caller's rows are gone, with an
HTTP-success response reporting `count = 0` (the delete is not rolled
back on error). -/
theorem c10_jobs_delete_unconditional
    (user : UserRec) (qp lp : String) (cache : CacheStore) (jobs : List ScrapedJobRow)
    (nid now : Nat) (gen : GenService) (e : String)
    (hfresh : ∀ r ∈ jobs, r.id < nid) :
    (∀ r ∈ jobs, r.userId = user.id →
      r ∉ (scrape_jobs user qp lp cache jobs nid now gen).jobsAfter) ∧
    ((∀ p, gen p = .error e) →
      (scrape_jobs user qp lp [] jobs nid now gen).resp
        = .ok ⟨0, jobsQueryUsed user qp, jobsLocationUsed user lp, []⟩ ∧
      ∀ r ∈ (scrape_jobs user qp lp [] jobs nid now gen).jobsAfter,
        ¬ r.userId = user.id) := by
  constructor
  · intro r hr hu hmem
    obtain ⟨rows, hafter, hge⟩ := scrape_jobs_after user qp lp cache jobs nid now gen
    rw [hafter] at hmem
    rcases List.mem_append.mp hmem with h1 | h2
    · have := (List.mem_filter.mp h1).2
      simp [hu] at this
    · exact absurd (hge r h2) (by have := hfresh r hr; omega)
  · intro hg
    constructor
    · simp [scrape_jobs, cacheGet, fetchJobsData, hg, Json.isTruthy]
    · intro r hmem
      obtain ⟨rows, hafter, hge⟩ := scrape_jobs_after user qp lp [] jobs nid now gen
      rw [hafter] at hmem
      rcases List.mem_append.mp hmem with h1 | h2
      · have := (List.mem_filter.mp h1).2
        simpa using this
      · -- the failing branch creates no rows: `rows` must be empty
        have hres : (scrape_jobs user qp lp [] jobs nid now gen).jobsAfter
            = jobs.filter (fun s => ¬ s.userId = user.id) := by
          simp [scrape_jobs, cacheGet, fetchJobsData, hg, Json.isTruthy]
        have hcomb : jobs.filter (fun s => ¬ s.userId = user.id) ++ rows
            = jobs.filter (fun s => ¬ s.userId = user.id) ++ [] := by
          rw [List.append_nil]
          exact hafter.symm.trans hres
        have hrows : rows = [] := List.append_cancel_left hcomb
        subst hrows
        exact absurd h2 (List.not_mem_nil r)

/-- Witness for `c10_jobs_delete_unconditional`: a stored row of user 1 is
gone after a failed-generation call that returns HTTP success with
`count = 0`. -/
theorem c10_jobs_delete_unconditional_witness :
    (∀ r ∈ [(⟨7, 1, .str "Old", .str "C", .str "B", "l", .str "W", .str "d"⟩ : ScrapedJobRow)],
      r.userId = 1 →
      r ∉ (scrape_jobs ⟨1, "Dev", .arr [], 1, [], "", ""⟩ "" "" []
        [⟨7, 1, .str "Old", .str "C", .str "B", "l", .str "W", .str "d"⟩] 10 0
        (fun _ => .error "boom")).jobsAfter) ∧
    ((scrape_jobs ⟨1, "Dev", .arr [], 1, [], "", ""⟩ "" "" []
        [⟨7, 1, .str "Old", .str "C", .str "B", "l", .str "W", .str "d"⟩] 10 0
        (fun _ => .error "boom")).resp
      = .ok ⟨0, jobsQueryUsed ⟨1, "Dev", .arr [], 1, [], "", ""⟩ "",
          jobsLocationUsed ⟨1, "Dev", .arr [], 1, [], "", ""⟩ "", []⟩ ∧
      ∀ r ∈ (scrape_jobs ⟨1, "Dev", .arr [], 1, [], "", ""⟩ "" "" []
        [⟨7, 1, .str "Old", .str "C", .str "B", "l", .str "W", .str "d"⟩] 10 0
        (fun _ => .error "boom")).jobsAfter, ¬ r.userId = 1) := by
  have C := c10_jobs_delete_unconditional ⟨1, "Dev", .arr [], 1, [], "", ""⟩ "" "" []
    [⟨7, 1, .str "Old", .str "C", .str "B", "l", .str "W", .str "d"⟩] 10 0
    (fun _ => .error "boom") "boom"
    (by
      intro r hr
      obtain rfl := List.mem_singleton.mp hr
      decide)
  exact ⟨C.1, C.2 (fun _ => rfl)⟩
